import Mathlib

/-!
Verification of kernel4d_sim, a setup and boot sequencer.

Shallow embedding of `src/kernel.cpp` (the `#else`, POSIX, branches of its
`#if defined(_WIN32)` blocks).

Modelling conventions.

* A C++ `char` is a Lean `Char`, a `std::string` is a `String`.
* The process state is a `World`: the file system name space, the lines still
  waiting on standard input, the wall clock, the two random generators and the
  trace of everything the process has done so far (console insertions, system
  calls on the file system, lines read), oldest first.
* One `Event.print` is recorded per `cout << ... ;` statement.
* `sleep_ms` only delays the process; the model keeps the call and leaves the
  world unchanged.
* `std::mt19937` and `std::uniform_int_distribution` are library code: a
  generator is the sequence of values it is going to return together with the
  position reached in that sequence, so every generator state is covered.
* `time_now` asks the clock: the clock is an arbitrary sequence of answers.
* The file system maps a path to nothing, a regular file or a directory, and
  carries the answer of the operating system to a request on each path
  (`room`): refused (permissions, a dangling link, a read-only file or
  directory, no space at all), or granted with room for so many characters.
  The program opens each path at most once in a run, so an answer per path
  covers every sequence of answers.  Names are compared as written.
* `reserve` throws above the `max_size` of the container (libstdc++, 64 bits)
  and above what the heap provides; a function that calls it returns `none`
  when it throws.  The heap always provides 64 KiB, more than the program
  ever reserves; what it provides above that is the field `heap`.
-/

namespace Kernel4D

/-! ## ANSI colour constants -/

def ESC : String := "\x1b["
def RESET : String := ESC ++ "0m"
def BOLD : String := ESC ++ "1m"
def RED : String := ESC ++ "31m"
def GREEN : String := ESC ++ "32m"
def YELLOW : String := ESC ++ "33m"
def BLUE : String := ESC ++ "34m"
def MAG : String := ESC ++ "35m"
def CYAN : String := ESC ++ "36m"

/-! ## State -/

/-- What a path of the file system names. -/
inductive Node where
  | file (content : String)
  | dir
deriving DecidableEq

/-- The file system: what every path names, if anything, and what the
operating system answers to a request to create or write the path: `none` when
it refuses, `some k` when it grants it with room for k characters. -/
structure FS where
  node : String → Option Node
  room : String → Option Nat

instance : CoeFun FS (fun _ => String → Option Node) := ⟨FS.node⟩

/-- An observable action of the process. -/
inductive Event where
  | print (s : String)
  | mkdir (path : String) (r : Int)
  | write (path : String) (content : String) (good : Bool)
  | read (line : String)
deriving DecidableEq

/-- A random generator: the values it returns, and how many were consumed. -/
structure Rng where
  draws : Nat → Nat
  pos : Nat

/-- The state of one process run. -/
structure World where
  fs : FS
  stdin : List String
  clock : Nat → String
  ticks : Nat
  hexRng : Rng
  imgRng : Rng
  heap : Nat
  trace : List Event

/-- The file system after `path` has been bound to `n`. -/
def FS.set (fs : FS) (path : String) (n : Node) : FS :=
  { fs with node := fun p => if p = path then some n else fs.node p }

/-- The directory part of a path: trailing slashes set aside, the text before
the slashes that precede its last component, if there are any. -/
def parentDir (path : String) : Option String :=
  let name := path.toList.reverse.dropWhile (fun c => c == '/')
  if '/' ∈ name then
    some (String.mk
      (((name.dropWhile (fun c => c != '/')).dropWhile (fun c => c == '/')).reverse))
  else none

/-- The directory a new entry `path` would be created in exists.  A path
without a slash lives in the working directory, the empty parent is the root. -/
def parentOk (path : String) (fs : FS) : Bool :=
  match parentDir path with
  | none => true
  | some p => p == "" || fs p == some Node.dir

/-- The system call `mkdir(path, mode)`: 0 and the directory is created, or -1
and nothing changes (the name is taken, is empty, its parent is missing, or the
operating system refuses). -/
def sys_mkdir (path : String) (fs : FS) : Int × FS :=
  if path == "" then (-1, fs)
  else if (fs path).isSome then (-1, fs)
  else if parentOk path fs && (fs.room path).isSome then (0, fs.set path Node.dir)
  else (-1, fs)

/-- The constructor `ofstream(path, ios::out)` manages to open the file: the
name is not a directory, the parent directory exists and the operating system
grants the request. -/
def ofstream_open (path : String) (fs : FS) : Bool :=
  path != "" && fs path != some Node.dir && parentOk path fs && (fs.room path).isSome

/-- The stream `ofstream ofs(path); ofs << content; ofs.close();` is still good
at the end: the file was opened and there was room for the whole content. -/
def ofstream_good (path content : String) (fs : FS) : Bool :=
  ofstream_open path fs && decide (content.length ≤ (fs.room path).getD 0)

/-- The largest size `std::string::reserve` accepts. -/
def string_max_size : Nat := 2 ^ 62 - 1

/-- The largest size `std::vector<unsigned char>::reserve` accepts. -/
def vector_max_size : Nat := 2 ^ 63 - 1

/-- The largest block the heap provides. -/
def heap_limit (w : World) : Nat := 65536 + w.heap

/-- The call `reserve(n)` on a container of maximal size `limit` returns; when
it does not, it throws `std::length_error` or `std::bad_alloc`, nothing catches
the exception and the process is over. -/
def reserve_ok (limit n : Nat) (w : World) : Bool :=
  decide (n ≤ limit) && decide (n ≤ heap_limit w)

/-- One statement `cout << ... ;`. -/
def cout (s : String) (w : World) : World :=
  { w with trace := w.trace ++ [Event.print s] }

/-- The helper `sleep_ms`: a pure delay. -/
def sleep_ms (_ms : Int) (w : World) : World := w

/-- The call `getline(cin, s)`: the next line, or the empty string at the end
of the input. -/
def getline (w : World) : String × World :=
  match w.stdin with
  | [] => ("", { w with trace := w.trace ++ [Event.read ""] })
  | l :: rest => (l, { w with stdin := rest, trace := w.trace ++ [Event.read l] })

/-- One call `rng()` of a `std::mt19937`: a 32-bit value. -/
def Rng.next (g : Rng) : Nat × Rng :=
  (g.draws g.pos % 2 ^ 32, { g with pos := g.pos + 1 })

/-- The stream manipulator `setw(n)` applied to the next item: pad on the left
with blanks up to n characters. -/
def setw (n : Nat) (s : String) : String :=
  String.mk (List.replicate (n - s.length) ' ') ++ s

/-- The constructor `string(n, c)`. -/
def rep (n : Nat) (c : Char) : String := String.mk (List.replicate n c)

/-! ## binary32 arithmetic

A finite non-negative `float` is `m * 2 ^ e`.  Operations round to nearest,
ties to even, with a 24-bit significand.  Only the normal range and non-zero
divisors are modelled, which is all `progress_bar` needs; the delays, the only
other floats of the program, are not observed. -/

/-- A non-negative binary32 value `m * 2 ^ e`. -/
structure F32 where
  m : Nat
  e : Int
deriving DecidableEq

/-- Position of the leading binary digit of n: the integer part of its base-2
logarithm (0 for n below 2).  The first argument bounds the recursion. -/
def ilog2 : Nat → Nat → Nat
  | 0, _ => 0
  | fuel + 1, n => if n < 2 then 0 else ilog2 fuel (n / 2) + 1

/-- Round the rational `num / den` to binary32. -/
def F32.round (num den : Nat) : F32 :=
  if num = 0 then ⟨0, 0⟩ else
  let l : Int := (ilog2 num num : Int) - (ilog2 den den : Int)
  let e : Int := if den * 2 ^ l.toNat ≤ num * 2 ^ (-l).toNat then l else l - 1
  let s : Int := 23 - e
  let n := num * 2 ^ s.toNat
  let d := den * 2 ^ (-s).toNat
  let q := n / d
  let r := n % d
  let m := if d < 2 * r ∨ (2 * r = d ∧ q % 2 = 1) then q + 1 else q
  ⟨m, -s⟩

/-- Conversion `(float)i` of a non-negative `int`. -/
def F32.ofNat (i : Nat) : F32 := F32.round i 1

/-- Division `x / y` of floats. -/
def F32.div (x y : F32) : F32 :=
  F32.round (x.m * 2 ^ (x.e - y.e).toNat) (y.m * 2 ^ (y.e - x.e).toNat)

/-- Product `x * y` of floats. -/
def F32.mul (x y : F32) : F32 :=
  F32.round (x.m * y.m * 2 ^ (x.e + y.e).toNat) (2 ^ (-(x.e + y.e)).toNat)

/-- Conversion `(int)x`: truncation. -/
def F32.toInt (x : F32) : Int :=
  ((x.m * 2 ^ x.e.toNat / 2 ^ (-x.e).toNat : Nat) : Int)

/-! ## Helpers of the source -/

/-- The helper `time_now`: the clock's next answer, formatted `HH:MM:SS` by the
library. -/
def time_now (w : World) : String × World :=
  (w.clock w.ticks, { w with ticks := w.ticks + 1 })

/-- Animated typing: one character at a time, then the end of line. -/
def slow_print (s : String) (ch_ms : Int) (w : World) : World :=
  let w := s.toList.foldl (fun w c => sleep_ms ch_ms (cout (String.singleton c) w)) w
  cout "\n" w

/-- The percentage shown on frame i of a bar of `steps` steps:
`(int)((i / (float)steps) * 100.0f)`. -/
def bar_pct (i steps : Nat) : Int :=
  F32.toInt (F32.mul (F32.div (F32.ofNat i) (F32.ofNat steps)) (F32.ofNat 100))

/-- One iteration of the loop of `progress_bar`. -/
def progress_frame (seconds : F32) (label : String) (steps : Nat) (w : World) (i : Nat) : World :=
  let pct := bar_pct i steps
  let filled := i
  let empty := steps - filled
  let w := cout ("\r" ++ CYAN) w
  let w := if !label.isEmpty then cout (label ++ " ") w else w
  let w := cout ("[" ++ rep filled '#' ++ rep empty '-' ++ "] " ++ setw 3 (toString pct) ++ "%" ++ RESET) w
  sleep_ms (F32.toInt (F32.div (F32.mul seconds (F32.ofNat 1000)) (F32.ofNat steps))) w

/-- Simple progress bar (inline). -/
def progress_bar (seconds : F32) (label : String) (w : World) : World :=
  let width : Nat := 36
  let steps : Nat := max 8 width
  let w := (List.range (steps + 1)).foldl (progress_frame seconds label steps) w
  cout "\n" w

/-- The digits `random_hex` draws from. -/
def hexDigits : String := "0123456789abcdef"

/-- One iteration of the loop of `random_hex`: `s.push_back(hex[rng() % 16])`. -/
def random_hex_step (acc : String × Rng) (_i : Nat) : String × Rng :=
  (acc.1.push (hexDigits.toList.getD (acc.2.next.1 % 16) '0'), acc.2.next.2)

/-- The loop of `random_hex` on a given generator. -/
def random_hex_from (n : Nat) (g : Rng) : String × Rng :=
  (List.range n).foldl random_hex_step ("", g)

/-- The body of `random_hex` once the reservation is made: the loop on the
function's static generator. -/
def random_hex_run (n : Nat) (w : World) : String × World :=
  let drawn := random_hex_from n w.hexRng
  (drawn.1, { w with hexRng := drawn.2 })

/-- Random hex artifact, drawn from the function's static generator; `none`
when `s.reserve(n)` throws. -/
def random_hex (n : Nat) (w : World) : Option (String × World) :=
  if reserve_ok string_max_size n w then some (random_hex_run n w) else none

/-- Ensure directory exists (simple). -/
def ensure_dir (d : String) (w : World) : Bool × World :=
  let made := sys_mkdir d w.fs
  let r := made.1
  let w := { w with fs := made.2, trace := w.trace ++ [Event.mkdir d r] }
  if w.fs d = some Node.dir then (true, w) else (r == 0, w)

/-- The file system after `ofstream ofs(path); ofs << content; ofs.close();`:
when the open fails the insertion is lost and nothing changes; when it
succeeds the file holds what there was room for. -/
def fs_put (fs : FS) (path content : String) : FS :=
  if ofstream_open path fs then
    fs.set path (Node.file (String.mk (content.toList.take ((fs.room path).getD 0))))
  else fs

/-- Open `path` for writing, insert `content`, close.  Nothing looks at the
state of the stream; the trace keeps it. -/
def ofstream_put (path content : String) (w : World) : World :=
  { w with fs := fs_put w.fs path content,
           trace := w.trace ++ [Event.write path content (ofstream_good path content w.fs)] }

/-- Write small placeholder file. -/
def write_file (path content : String) (_binary : Bool) (w : World) : World :=
  ofstream_put path content w

/-- One iteration of the loop of `create_fake_image`:
`buf.push_back((unsigned char)dist(rng))`. -/
def fake_image_step (acc : List Char × Rng) (_i : Nat) : List Char × Rng :=
  (acc.1 ++ [Char.ofNat (acc.2.draws acc.2.pos % 256)], { acc.2 with pos := acc.2.pos + 1 })

/-- The buffer filled by the loop of `create_fake_image`. -/
def fake_image_buf (total : Nat) (g : Rng) : List Char × Rng :=
  (List.range total).foldl fake_image_step ([], g)

/-- The body of `create_fake_image` once the reservation is made: fill the
buffer, write it, close. -/
def fake_image_run (path : String) (total : Nat) (w : World) : World :=
  let filled := fake_image_buf total w.imgRng
  ofstream_put path (String.mk filled.1) { w with imgRng := filled.2 }

/-- Create a fake binary placeholder; `size_t` is 64 bits wide; `none` when
`buf.reserve(total)` throws (the file, opened before, is then left empty). -/
def create_fake_image (path : String) (kb : Nat) (w : World) : Option World :=
  let total := kb * 1024 % 2 ^ 64
  if reserve_ok vector_max_size total w then some (fake_image_run path total w) else none

/-- Small helper to print a decorative header. -/
def print_header (w : World) : World :=
  let w := cout (MAG ++ BOLD) w
  let w := cout ("  ____  _  _  ____    ____    _  _  _  _  _  _ " ++ "\n") w
  let w := cout (" / ___|| || ||  _ \\  / ___|  / \\/ \\/ \\/ \\/ \\/ \\" ++ "\n") w
  let w := cout ("| |  _ | || || |_) | \\___ \\ / /\\ /\\ /\\ /\\ /\\ /" ++ "\n") w
  let w := cout ("| |_| || || ||  _ <   ___) / /__\\/__\\/__\\/__\\/ " ++ "\n") w
  let w := cout (" \\____||_||_||_| \\_\\ |____/\\____/\\____/\\____/  " ++ "\n") w
  cout (RESET ++ "\n") w

/-! ## Boot sequencer -/

/-- The EARLY lines, first of the three log phases of `simulate_boot`. -/
def early : List String :=
  [ "Booting 4D Kernel Simulator v4.0-sim",
    "Setting up CPU micro-slices [OK]",
    "Initializing chrono-scheduler [OK]",
    "Probing pseudo-hardware: temporal bus, entropy bridge [OK]",
    "Mounting pseudo rootfs: /simroot [RO]",
    "Loading main modules: chrono_scheduler, slice_manager, quantum_sandbox" ]

/-- The MID lines. -/
def mid : List String :=
  [ "Activating inter-slice comms [OK]",
    "Registering 4th-dimension manager [OK]",
    "Spawning temporal worker threads x16",
    "Entropy bridge calibration: 0.9 -> 0.98",
    "Virtual devices: /dev/slice0, /dev/slice1 [OK]" ]

/-- The LATE lines; the fourth names the artifact of the directory `envdir`. -/
def late (envdir : String) : List String :=
  [ "Starting user-land shim (simulated)",
    "Applying policy: temporal-safe-mode",
    "Network stack: disabled (simulation)",
    "Loading artifact: " ++ envdir ++ "/artifact.hex",
    "Kernel prompt: 4d#" ]

/-- The statement `cout << COLOR << "[" << time_now() << "] " << RESET << l << endl;`. -/
def log_line (color l : String) (w : World) : World :=
  let now := time_now w
  cout (color ++ "[" ++ now.1 ++ "] " ++ RESET ++ l ++ "\n") now.2

/-- The part of `simulate_boot` before the prompt: the staged boot logs. -/
def boot_logs (envdir : String) (w : World) : World :=
  let w := early.foldl (fun w l => sleep_ms 450 (log_line BLUE l w)) w
  let w := mid.foldl (fun w l => sleep_ms 400 (log_line CYAN l w)) w
  let w := log_line RED "WARNING: Temporal skew detected on slice1" w
  let w := sleep_ms 800 w
  let w := log_line YELLOW "Attempting corrective drift compensation..." w
  let w := progress_bar (F32.round 12 10) "drift-correct" w
  let w := log_line GREEN "Compensation complete. No data loss." w
  let w := sleep_ms 350 w
  (late envdir).foldl (fun w l => sleep_ms 350 (log_line GREEN l w)) w

/-- The four branches of the prompt of `simulate_boot`. -/
inductive Branch where
  | status
  | dump
  | noop
  | fallback
deriving DecidableEq

/-- The fixed block printed by the `status` command. -/
def status_block : String :=
  CYAN ++ "4D Kernel Status: All temporal slices nominal.\n"
    ++ "Uptime: 0 days, 0:00:12 (simulated)\n"
    ++ "Active workers: 16\n" ++ RESET

/-- The body of each branch of the prompt. -/
def run_branch (b : Branch) (cmd : String) (w : World) : World :=
  match b with
  | Branch.status => cout status_block w
  | Branch.dump =>
      let preview := (random_hex 48 w).get (by simp [random_hex, reserve_ok, heap_limit, string_max_size]; omega)
      cout (YELLOW ++ "Artifact preview: " ++ preview.1 ++ RESET ++ "\n") preview.2
  | Branch.noop => cout (YELLOW ++ "(no-op) returning to host\n" ++ RESET) w
  | Branch.fallback => cout (RED ++ cmd ++ ": command not found (simulation)\n" ++ RESET) w

/-- The `if` chain on the line read at the prompt. -/
def boot_dispatch (cmd : String) (w : World) : World :=
  if cmd = "status" then run_branch Branch.status cmd w
  else if cmd = "dump artifact" then run_branch Branch.dump cmd w
  else if cmd.isEmpty then run_branch Branch.noop cmd w
  else run_branch Branch.fallback cmd w

/-- Simulate staged boot logs, then show the fake prompt and accept a single
command. -/
def simulate_boot (envdir : String) (w : World) : World :=
  let w := boot_logs envdir w
  let w := cout (MAG ++ "4d# " ++ RESET) w
  let line := getline w
  boot_dispatch line.1 line.2

/-! ## Setup sequencer -/

/-- The content of `4d.conf`. -/
def conf : String :=
  "# 4D Kernel simulated config\n[core]\nname = \"4d-kernel-sim\"\nversion = \"4.0-sim\"\n"
    ++ "mode = \"temporal-safe\"\nmax_dimensions = 4\n\n[modules]\n"
    ++ "module0 = \"chrono_scheduler\"\nmodule1 = \"entropy-bridge\"\n"
    ++ "module2 = \"slice-manager\"\nmodule3 = \"quantum-sandbox\"\n"

/-- The content of `4d-kernel.service.sample`. -/
def svc : String :=
  "# 4d-kernel.service.sample (DO NOT ENABLE - sample only)\n[Unit]\n"
    ++ "Description=4D Kernel Simulation (sample)\nAfter=network.target\n\n[Service]\n"
    ++ "Type=oneshot\n"
    ++ "ExecStart=/bin/echo \\\"This is a sample service file. DO NOT enable on production.\\\"\n"
    ++ "RemainAfterExit=yes\n\n[Install]\nWantedBy=multi-user.target\n"

/-- The module list of step 6. -/
def modules : List String :=
  [ "chrono_scheduler.kmod",
    "entropy_bridge.kmod",
    "slice_manager.kmod",
    "quantum_sandbox.kmod",
    "retro_compat.kmod" ]

/-- The opening of `run_simulation`, up to the creation of the environment directory. -/
def run_prelude (w : World) : World :=
  let w := print_header w
  let w := slow_print (CYAN ++ "shadow 4D kernel installer - v4.0-sim" ++ RESET) 2 w
  let w := slow_print (YELLOW ++ "Preparing local sandbox environment..." ++ RESET) 2 w
  sleep_ms 200 w

/-- Step 1: generate fake kernel image. -/
def step1_image (envdir : String) (w : World) : World :=
  let w := slow_print (YELLOW ++ "Generating 4D kernel image..." ++ RESET) 4 w
  let w := progress_bar (F32.round 13 10) "module-compile" w
  let imgPath := envdir ++ "/4d-kernel.img"
  let w := (create_fake_image imgPath 48 w).get
    (by simp [create_fake_image, reserve_ok, heap_limit, vector_max_size]; omega)
  let w := slow_print (GREEN ++ "-> created " ++ imgPath ++ RESET) 4 w
  sleep_ms 250 w

/-- Step 2: generate fake initramfs. -/
def step2_initramfs (envdir : String) (w : World) : World :=
  let w := slow_print (YELLOW ++ "Creating compressed initramfs (simulated)..." ++ RESET) 4 w
  let w := progress_bar (F32.round 9 10) "initramfs-pack" w
  let initPath := envdir ++ "/4d-initramfs.cpio.gz"
  let w := write_file initPath "SIMULATED_INITRAMFS_ARCHIVE_CONTENT\n" false w
  let w := slow_print (GREEN ++ "-> created " ++ initPath ++ RESET) 4 w
  sleep_ms 250 w

/-- Step 3: write config. -/
def step3_config (envdir : String) (w : World) : World :=
  let w := slow_print (YELLOW ++ "Writing runtime configuration..." ++ RESET) 4 w
  let confPath := envdir ++ "/4d.conf"
  let w := write_file confPath conf false w
  let w := slow_print (GREEN ++ "-> wrote " ++ confPath ++ RESET) 4 w
  sleep_ms 200 w

/-- Step 4: generate artifact hex. -/
def step4_artifact (envdir : String) (w : World) : World :=
  let w := slow_print (YELLOW ++ "Generating integrity artifact (sha-sim)..." ++ RESET) 4 w
  let w := progress_bar (F32.round 7 10) "artifact" w
  let drawn := (random_hex 128 w).get (by simp [random_hex, reserve_ok, heap_limit, string_max_size]; omega)
  let art := drawn.1
  let w := drawn.2
  let artPath := envdir ++ "/artifact.hex"
  let w := write_file artPath (art ++ "\n") false w
  let w := slow_print (GREEN ++ "-> artifact saved to " ++ artPath ++ RESET) 4 w
  sleep_ms 200 w

/-- Step 5: create fake systemd unit sample (local). -/
def step5_service (envdir : String) (w : World) : World :=
  let w := slow_print (YELLOW ++ "Preparing service descriptor (sample)..." ++ RESET) 4 w
  let svcPath := envdir ++ "/4d-kernel.service.sample"
  let w := write_file svcPath svc false w
  let w := slow_print (GREEN ++ "-> wrote " ++ svcPath ++ RESET) 4 w
  sleep_ms 200 w

/-- The body of the loop of step 6, for the module at index i. -/
def verify_module (w : World) (im : Nat × String) : World :=
  let i := im.1
  let m := im.2
  let w := cout (setw 2 (toString (i + 1)) ++ ". " ++ MAG ++ m ++ RESET ++ " ") w
  let w := progress_bar (F32.round 35 100) m w
  cout ("  " ++ GREEN ++ "OK" ++ RESET ++ "\n") w

/-- Step 6: fake module listing and verification. -/
def step6_modules (w : World) : World :=
  let w := slow_print (CYAN ++ "Verifying image and modules..." ++ RESET) 4 w
  let w := modules.enum.foldl verify_module w
  sleep_ms 120 w

/-- Step 7: integrity "check", and the closing line of the setup. -/
def step7_integrity (w : World) : World :=
  let w := slow_print (YELLOW ++ "Performing integrity check (simulated SHA256)..." ++ RESET) 4 w
  let w := progress_bar (F32.round 1 1) "sha256-sim" w
  let drawn := (random_hex 64 w).get (by simp [random_hex, reserve_ok, heap_limit, string_max_size]; omega)
  let checksum := drawn.1
  let w := drawn.2
  let w := cout (GREEN ++ "sha256: " ++ checksum ++ RESET ++ "\n") w
  let w := sleep_ms 180 w
  let w := slow_print (GREEN ++ BOLD ++ "4D Kernel image prepared successfully (SIMULATION MODE)" ++ RESET) 4 w
  sleep_ms 250 w

/-- The setup phases of `run_simulation`, from the line announcing the environment directory
to the line announcing success. -/
def setup_steps (envdir : String) (w : World) : World :=
  let w := slow_print (GREEN ++ "Environment directory: ./" ++ envdir ++ RESET) 4 w
  let w := sleep_ms 200 w
  let w := step1_image envdir w
  let w := step2_initramfs envdir w
  let w := step3_config envdir w
  let w := step4_artifact envdir w
  let w := step5_service envdir w
  let w := step6_modules w
  step7_integrity w

/-- The boot path of the opt-in: announce, then boot. -/
def boot_path (envdir : String) (w : World) : World :=
  let w := slow_print (MAG ++ "Starting simulated boot..." ++ RESET) 6 w
  simulate_boot envdir w

/-- The other path of the opt-in. -/
def skip_path (envdir : String) (w : World) : World :=
  slow_print (YELLOW ++ "Skipping boot simulation. Inspect files in ./" ++ envdir ++ RESET) 4 w

/-- Offer simulated boot: the prompt, the reply and what follows. -/
def offer_boot (envdir : String) (w : World) : World :=
  let w := slow_print (CYAN ++ "Would you like to simulate boot now? (y/N)" ++ RESET) 2 w
  let w := cout "> " w
  let line := getline w
  let resp := line.1
  let w := line.2
  let w :=
    if !resp.isEmpty && (resp.get 0 == 'y' || resp.get 0 == 'Y') then boot_path envdir w
    else skip_path envdir w
  slow_print (CYAN ++ "Simulation complete. Note: this was a local-only theatrical simulation." ++ RESET) 4 w

/-- The environment directory of `run_simulation`. -/
def envdir0 : String := "4d_kernel_env"

/-- Main simulated setup sequence. -/
def run_simulation (w : World) : World :=
  let w := run_prelude w
  let envdir := envdir0
  let made := ensure_dir envdir w
  if !made.1 then
    slow_print (RED ++ "Failed to create environment directory: " ++ envdir ++ RESET) 4 made.2
  else
    offer_boot envdir (setup_steps envdir made.2)

/-- The entry point: an empty line, the simulation, an empty line, exit status 0. -/
def main (w : World) : Int × World :=
  let w := cout "\n" w
  let w := run_simulation w
  let w := cout "\n" w
  (0, w)

/-! ## Vocabulary of the statements -/

/-- The world after the events `es` have been appended to its trace. -/
def emit (es : List Event) (w : World) : World :=
  { w with trace := w.trace ++ es }

/-- What `slow_print s` sends to the console. -/
def slow_events (s : String) : List Event :=
  s.toList.map (fun c => Event.print (String.singleton c)) ++ [Event.print "\n"]

/-- One frame of a progress bar, showing `pct` percent at step i of `steps`. -/
def frame_events (label : String) (steps i : Nat) (pct : Int) : List Event :=
  [Event.print ("\r" ++ CYAN)]
    ++ (if label.isEmpty then [] else [Event.print (label ++ " ")])
    ++ [Event.print ("[" ++ rep i '#' ++ rep (steps - i) '-' ++ "] "
          ++ setw 3 (toString pct) ++ "%" ++ RESET)]

/-- The 37 frames of a progress bar and its closing end of line, with the
percentage computed in integers. -/
def bar_events (label : String) : List Event :=
  (List.range 37).flatMap (fun i => frame_events label 36 i (Int.ofNat (100 * i / 36)))
    ++ [Event.print "\n"]

/-- The five artifact files of an environment directory, in the order the setup writes them. -/
def artifact_paths (envdir : String) : List String :=
  [ envdir ++ "/4d-kernel.img",
    envdir ++ "/4d-initramfs.cpio.gz",
    envdir ++ "/4d.conf",
    envdir ++ "/artifact.hex",
    envdir ++ "/4d-kernel.service.sample" ]

/-- The content of `4d-initramfs.cpio.gz`. -/
def initramfs : String := "SIMULATED_INITRAMFS_ARCHIVE_CONTENT\n"

/-- What the opening of `run_simulation` prints. -/
def prelude_events : List Event :=
  [ Event.print (MAG ++ BOLD),
    Event.print ("  ____  _  _  ____    ____    _  _  _  _  _  _ " ++ "\n"),
    Event.print (" / ___|| || ||  _ \\  / ___|  / \\/ \\/ \\/ \\/ \\/ \\" ++ "\n"),
    Event.print ("| |  _ | || || |_) | \\___ \\ / /\\ /\\ /\\ /\\ /\\ /" ++ "\n"),
    Event.print ("| |_| || || ||  _ <   ___) / /__\\/__\\/__\\/__\\/ " ++ "\n"),
    Event.print (" \\____||_||_||_| \\_\\ |____/\\____/\\____/\\____/  " ++ "\n"),
    Event.print (RESET ++ "\n") ]
    ++ slow_events (CYAN ++ "shadow 4D kernel installer - v4.0-sim" ++ RESET)
    ++ slow_events (YELLOW ++ "Preparing local sandbox environment..." ++ RESET)

/-- Phase 1 as it appears in the trace: announcement, progress bar, the write
of the kernel image, confirmation. -/
def phase1_events (envdir img : String) (opened : Bool) : List Event :=
  slow_events (YELLOW ++ "Generating 4D kernel image..." ++ RESET)
    ++ bar_events "module-compile"
    ++ [Event.write (envdir ++ "/4d-kernel.img") img opened]
    ++ slow_events (GREEN ++ "-> created " ++ (envdir ++ "/4d-kernel.img") ++ RESET)

/-- Phase 2 as it appears in the trace. -/
def phase2_events (envdir : String) (opened : Bool) : List Event :=
  slow_events (YELLOW ++ "Creating compressed initramfs (simulated)..." ++ RESET)
    ++ bar_events "initramfs-pack"
    ++ [Event.write (envdir ++ "/4d-initramfs.cpio.gz") initramfs opened]
    ++ slow_events (GREEN ++ "-> created " ++ (envdir ++ "/4d-initramfs.cpio.gz") ++ RESET)

/-- Phase 3 as it appears in the trace. -/
def phase3_events (envdir : String) (opened : Bool) : List Event :=
  slow_events (YELLOW ++ "Writing runtime configuration..." ++ RESET)
    ++ [Event.write (envdir ++ "/4d.conf") conf opened]
    ++ slow_events (GREEN ++ "-> wrote " ++ (envdir ++ "/4d.conf") ++ RESET)

/-- Phase 4 as it appears in the trace. -/
def phase4_events (envdir art : String) (opened : Bool) : List Event :=
  slow_events (YELLOW ++ "Generating integrity artifact (sha-sim)..." ++ RESET)
    ++ bar_events "artifact"
    ++ [Event.write (envdir ++ "/artifact.hex") (art ++ "\n") opened]
    ++ slow_events (GREEN ++ "-> artifact saved to " ++ (envdir ++ "/artifact.hex") ++ RESET)

/-- Phase 5 as it appears in the trace. -/
def phase5_events (envdir : String) (opened : Bool) : List Event :=
  slow_events (YELLOW ++ "Preparing service descriptor (sample)..." ++ RESET)
    ++ [Event.write (envdir ++ "/4d-kernel.service.sample") svc opened]
    ++ slow_events (GREEN ++ "-> wrote " ++ (envdir ++ "/4d-kernel.service.sample") ++ RESET)

/-- The verification of module number i + 1 as it appears in the trace: its
numbered name, its progress bar, its OK. -/
def module_events (i : Nat) (m : String) : List Event :=
  [Event.print (setw 2 (toString (i + 1)) ++ ". " ++ MAG ++ m ++ RESET ++ " ")]
    ++ bar_events m
    ++ [Event.print ("  " ++ GREEN ++ "OK" ++ RESET ++ "\n")]

/-- Phase 6 as it appears in the trace: the five modules in list order. -/
def phase6_events : List Event :=
  slow_events (CYAN ++ "Verifying image and modules..." ++ RESET)
    ++ module_events 0 "chrono_scheduler.kmod"
    ++ module_events 1 "entropy_bridge.kmod"
    ++ module_events 2 "slice_manager.kmod"
    ++ module_events 3 "quantum_sandbox.kmod"
    ++ module_events 4 "retro_compat.kmod"

/-- Phase 7 as it appears in the trace: the final integrity check, then the
line announcing success. -/
def phase7_events (sum : String) : List Event :=
  slow_events (YELLOW ++ "Performing integrity check (simulated SHA256)..." ++ RESET)
    ++ bar_events "sha256-sim"
    ++ [Event.print (GREEN ++ "sha256: " ++ sum ++ RESET ++ "\n")]
    ++ slow_events (GREEN ++ BOLD ++ "4D Kernel image prepared successfully (SIMULATION MODE)" ++ RESET)

/-- The five artifacts of an environment directory with the content the setup writes to each,
in the order it writes them, for the image bytes `img` and the hexadecimal
line `art`. -/
def artifacts (envdir img art : String) : List (String × String) :=
  [ (envdir ++ "/4d-kernel.img", img),
    (envdir ++ "/4d-initramfs.cpio.gz", initramfs),
    (envdir ++ "/4d.conf", conf),
    (envdir ++ "/artifact.hex", art ++ "\n"),
    (envdir ++ "/4d-kernel.service.sample", svc) ]

/-- The operating system grants the write of `content` to `path`: it grants
the request and there is room for the whole content. -/
def granted (fs : FS) (path content : String) : Bool :=
  (fs.room path).isSome && decide (content.length ≤ (fs.room path).getD 0)

/-- The file system after the five write attempts of the setup. -/
def setup_fs (envdir : String) (fs : FS) (img art : String) : FS :=
  fs_put (fs_put (fs_put (fs_put (fs_put fs
    (envdir ++ "/4d-kernel.img") img)
    (envdir ++ "/4d-initramfs.cpio.gz") initramfs)
    (envdir ++ "/4d.conf") conf)
    (envdir ++ "/artifact.hex") (art ++ "\n"))
    (envdir ++ "/4d-kernel.service.sample") svc

/-- One time-stamped log line of the boot sequence, as printed. -/
def log_event (clock : Nat → String) (t : Nat) (color l : String) : Event :=
  Event.print (color ++ "[" ++ clock t ++ "] " ++ RESET ++ l ++ "\n")

/-- The text a branch of the boot prompt prints for the line `cmd`, with the
static generator of `random_hex` in state g. -/
def branch_text (b : Branch) (cmd : String) (g : Rng) : String :=
  match b with
  | Branch.status => status_block
  | Branch.dump => YELLOW ++ "Artifact preview: " ++ (random_hex_from 48 g).1 ++ RESET ++ "\n"
  | Branch.noop => YELLOW ++ "(no-op) returning to host\n" ++ RESET
  | Branch.fallback => RED ++ cmd ++ ": command not found (simulation)\n" ++ RESET

/-- The answer of an operating system that grants every request, with room
for a mebibyte. -/
def ample : String → Option Nat := fun _ => some 1048576

/-- The file system with nothing in it, every request granted. -/
def empty_fs : FS := { node := fun _ => none, room := ample }

/-- A process about to start on the file system `fs` with the lines `input`
waiting on standard input; the clock always answers midnight, both generators
return zeros and the heap provides its 64 KiB. -/
def start_world (fs : FS) (input : List String) : World :=
  { fs := fs, stdin := input, clock := fun _ => "00:00:00", ticks := 0,
    hexRng := ⟨fun _ => 0, 0⟩, imgRng := ⟨fun _ => 0, 0⟩, heap := 0, trace := [] }

/-- The branch the claims assign to the line `cmd`. -/
def branch_of (cmd : String) : Branch :=
  if cmd = "status" then Branch.status
  else if cmd = "dump artifact" then Branch.dump
  else if cmd = "" then Branch.noop
  else Branch.fallback

/-- The log lines and the progress bar `simulate_boot` prints before its
prompt, when the clock has been asked `t0` times before. -/
def boot_events (envdir : String) (clock : Nat → String) (t0 : Nat) : List Event :=
  early.enum.map (fun kl => log_event clock (t0 + kl.1) BLUE kl.2)
    ++ (mid.enumFrom 6).map (fun kl => log_event clock (t0 + kl.1) CYAN kl.2)
    ++ [log_event clock (t0 + 11) RED "WARNING: Temporal skew detected on slice1"]
    ++ [log_event clock (t0 + 12) YELLOW "Attempting corrective drift compensation..."]
    ++ bar_events "drift-correct"
    ++ [log_event clock (t0 + 13) GREEN "Compensation complete. No data loss."]
    ++ ((late envdir).enumFrom 14).map (fun kl => log_event clock (t0 + kl.1) GREEN kl.2)

/-- The reply is not empty and its first character is `y` or `Y`. -/
def starts_with_y (resp : String) : Prop :=
  resp.data.head? = some 'y' ∨ resp.data.head? = some 'Y'

instance (resp : String) : Decidable (starts_with_y resp) :=
  inferInstanceAs (Decidable (_ ∨ _))

/-- The closing line of `run_simulation`. -/
def finish (w : World) : World :=
  slow_print (CYAN ++ "Simulation complete. Note: this was a local-only theatrical simulation."
    ++ RESET) 4 w

/-- The world when the setup phases of `run_simulation` are over. -/
def setup_done (w : World) : World :=
  setup_steps envdir0 (ensure_dir envdir0 (run_prelude w)).2

/-- The opt-in prompt of `run_simulation`: the line read, and the world just
after it was read. -/
def opt_in_prompt (w : World) : String × World :=
  getline (cout "> " (slow_print (CYAN ++ "Would you like to simulate boot now? (y/N)" ++ RESET) 2
    (setup_done w)))

/-- Everything the setup phases add to the trace on an environment directory `envdir`, from
the line announcing the environment directory to the line announcing success, when the five
write attempts leave their streams in the states `o1` .. `o5`. -/
def setup_events (envdir img art sum : String) (o1 o2 o3 o4 o5 : Bool) : List Event :=
  slow_events (GREEN ++ "Environment directory: ./" ++ envdir ++ RESET)
    ++ phase1_events envdir img o1
    ++ phase2_events envdir o2
    ++ phase3_events envdir o3
    ++ phase4_events envdir art o4
    ++ phase5_events envdir o5
    ++ phase6_events
    ++ phase7_events sum

/-- Everything the setup phases add to the trace when they start on the file
system `fs`: each write attempt leaves its stream as `ofstream_good` says at
its turn. -/
def setup_trace (envdir : String) (fs : FS) (img art sum : String) : List Event :=
  setup_events envdir img art sum
    (ofstream_good (envdir ++ "/4d-kernel.img") img fs)
    (ofstream_good (envdir ++ "/4d-initramfs.cpio.gz") initramfs
      (fs_put fs (envdir ++ "/4d-kernel.img") img))
    (ofstream_good (envdir ++ "/4d.conf") conf
      (fs_put (fs_put fs (envdir ++ "/4d-kernel.img") img)
        (envdir ++ "/4d-initramfs.cpio.gz") initramfs))
    (ofstream_good (envdir ++ "/artifact.hex") (art ++ "\n")
      (fs_put (fs_put (fs_put fs (envdir ++ "/4d-kernel.img") img)
        (envdir ++ "/4d-initramfs.cpio.gz") initramfs) (envdir ++ "/4d.conf") conf))
    (ofstream_good (envdir ++ "/4d-kernel.service.sample") svc
      (fs_put (fs_put (fs_put (fs_put fs (envdir ++ "/4d-kernel.img") img)
        (envdir ++ "/4d-initramfs.cpio.gz") initramfs) (envdir ++ "/4d.conf") conf)
        (envdir ++ "/artifact.hex") (art ++ "\n")))

/-- What the opt-in prompt prints before it reads the reply. -/
def ask_events : List Event :=
  slow_events (CYAN ++ "Would you like to simulate boot now? (y/N)" ++ RESET) ++ [Event.print "> "]

/-- A later process, whose generator of `random_hex` returns tens where that of
`start_world` returns zeros. -/
def world_again : World :=
  { start_world empty_fs ["n"] with hexRng := ⟨fun _ => 10, 0⟩ }

/-- A run on an empty file system whose reply to the opt-in prompt is "yes". -/
def world_yes : World := start_world empty_fs ["yes", "status"]

/-- The world a second process starts in when it runs after the run of `w1`:
its own input, clock, generators, heap and trace (those of `w2`), on the names
the first run left, with the answers the operating system gives by then (those
of `w2`). -/
def second_run (w1 w2 : World) : World :=
  { w2 with fs := { node := (run_simulation w1).fs.node, room := w2.fs.room } }

/-- An environment directory in which a directory occupies the name `name`. -/
def fs_occupied (name : String) : FS :=
  { node := fun p =>
      if p = "4d_kernel_env" ∨ p = "4d_kernel_env/" ++ name then some Node.dir else none,
    room := ample }

/-- A file system in which a regular file occupies the name of the environment directory. -/
def fs_blocked : FS :=
  { node := fun p => if p = "4d_kernel_env" then some (Node.file "x") else none,
    room := ample }

/-- A run in which the environment directory cannot be created. -/
def world_blocked : World := start_world fs_blocked ["y", "status"]

/-- The paths of the write attempts of a trace, oldest first. -/
def file_writes (t : List Event) : List String :=
  t.filterMap (fun e => match e with
    | Event.write p _ _ => some p
    | _ => none)

/-- The lines read in a trace, oldest first. -/
def lines_read (t : List Event) : List String :=
  t.filterMap (fun e => match e with
    | Event.read l => some l
    | _ => none)

/-- Every character of the string is a lowercase hexadecimal digit. -/
def is_hex (s : String) : Prop := ∀ c ∈ s.toList, c ∈ hexDigits.toList

instance (s : String) : Decidable (is_hex s) :=
  inferInstanceAs (Decidable (∀ c ∈ s.toList, c ∈ hexDigits.toList))

/-- The bytes `create_fake_image` generates for an image of `kb` kilobytes. -/
def image_bytes (kb : Nat) (g : Rng) : String :=
  String.mk (fake_image_buf (kb * 1024 % 2 ^ 64) g).1

/-- The generator of `create_fake_image` once an image of `kb` kilobytes is
generated. -/
def image_rng (kb : Nat) (g : Rng) : Rng := (fake_image_buf (kb * 1024 % 2 ^ 64) g).2

/-- The bytes generated for the kernel image of this run. -/
def img_of (w : World) : String := image_bytes 48 w.imgRng

/-- The generator of `create_fake_image` once the kernel image is generated. -/
def img_rng_after (w : World) : Rng := image_rng 48 w.imgRng

/-- The static generator of `random_hex` once the setup is over. -/
def hex_rng_after (w : World) : Rng := (random_hex_from 64 (random_hex_from 128 w.hexRng).2).2

/-- The artifact `random_hex(128)` returns in step 4 of this run. -/
def art_of (w : World) : String := (random_hex_from 128 w.hexRng).1

/-- The checksum `random_hex(64)` returns in step 7 of this run. -/
def sum_of (w : World) : String :=
  (random_hex_from 64 (random_hex_from 128 w.hexRng).2).1

end Kernel4D

namespace Kernel4D

/-! ## Console helpers -/

theorem emit_emit (a b : List Event) (w : World) : emit b (emit a w) = emit (a ++ b) w := by
  simp [emit, List.append_assoc]

theorem emit_nil (w : World) : emit [] w = w := by
  simp [emit]

theorem cout_eq (s : String) (w : World) : cout s w = emit [Event.print s] w := rfl

/-- A loop whose body only prints, prints the concatenation of what its
iterations print. -/
theorem foldl_emit {α : Type} (f : World → α → World) (ev : α → List Event)
    (h : ∀ w a, f w a = emit (ev a) w) (l : List α) (w : World) :
    l.foldl f w = emit (l.flatMap ev) w := by
  induction l generalizing w with
  | nil => simp [emit]
  | cons a l ih => simp [List.foldl_cons, h, ih, emit_emit]

theorem flatMap_unit {α β : Type} (g : α → β) (l : List α) :
    l.flatMap (fun a => [g a]) = l.map g := by
  induction l with
  | nil => rfl
  | cons a l ih => simp [List.flatMap_cons, ih]

theorem slow_print_eq (s : String) (ms : Int) (w : World) :
    slow_print s ms w = emit (slow_events s) w := by
  unfold slow_print slow_events
  rw [foldl_emit _ (fun c => [Event.print (String.singleton c)])
    (fun w c => by simp [sleep_ms, cout_eq]), flatMap_unit, cout_eq, emit_emit]

/-- The float computation of the percentage agrees with integer division on
every frame of a 36-step bar. -/
theorem bar_pct_eq : ∀ i, i ≤ 36 → bar_pct i 36 = Int.ofNat (100 * i / 36) := by
  decide

theorem progress_frame_eq (seconds : F32) (label : String) (steps : Nat) (w : World) (i : Nat) :
    progress_frame seconds label steps w i = emit (frame_events label steps i (bar_pct i steps)) w := by
  unfold progress_frame frame_events
  by_cases h : label.isEmpty <;> simp [h, sleep_ms, cout_eq, emit_emit]

theorem progress_bar_eq (seconds : F32) (label : String) (w : World) :
    progress_bar seconds label w = emit (bar_events label) w := by
  unfold progress_bar bar_events
  simp only [show max 8 36 = 36 from rfl]
  rw [foldl_emit _ _ (progress_frame_eq seconds label 36), cout_eq, emit_emit]
  have h : (List.range (36 + 1)).flatMap (fun i => frame_events label 36 i (bar_pct i 36))
      = (List.range 37).flatMap (fun i => frame_events label 36 i (Int.ofNat (100 * i / 36))) := by
    apply List.flatMap_congr
    intro i hi
    rw [bar_pct_eq i (by have := List.mem_range.mp hi; omega)]
  rw [h]

/-- C10: `progress_bar` prints exactly the 37 frames i = 0..36 and then an end of
line, whatever the duration and the label; frame i shows i `#` then 36 - i `-`
between the brackets, 36 cells in all; the percentage shown is the integer part
of 100 * i / 36, it never decreases from a frame to the next, it is 0 on the
first frame, 100 on the last, and never above 100. -/
theorem progress_bar_frames (seconds : F32) (label : String) (w : World) :
    progress_bar seconds label w = emit (bar_events label) w
    ∧ bar_events label =
        (List.range 37).flatMap (fun i =>
          [Event.print ("\r" ++ CYAN)]
            ++ (if label.isEmpty then [] else [Event.print (label ++ " ")])
            ++ [Event.print ("[" ++ rep i '#' ++ rep (36 - i) '-' ++ "] "
                  ++ setw 3 (toString (Int.ofNat (100 * i / 36))) ++ "%" ++ RESET)])
          ++ [Event.print "\n"]
    ∧ (∀ i : Fin 37, (rep i '#' ++ rep (36 - i) '-').length = 36)
    ∧ (∀ i : Fin 37, bar_pct i 36 = Int.ofNat (100 * i / 36))
    ∧ (∀ i : Fin 36, bar_pct i.val 36 ≤ bar_pct (i.val + 1) 36)
    ∧ bar_pct 0 36 = 0
    ∧ bar_pct 36 36 = 100
    ∧ (∀ i : Fin 37, bar_pct i 36 ≤ 100) := by
  have hp : ∀ i : Fin 37, bar_pct i 36 = Int.ofNat (100 * i / 36) :=
    fun i => bar_pct_eq i (by have := i.isLt; omega)
  refine ⟨progress_bar_eq seconds label w, rfl, ?_, hp, ?_, ?_, ?_, ?_⟩
  · intro i
    have := i.isLt
    simp [rep, String.length_append]
    omega
  · intro i
    have h1 := bar_pct_eq i (by have := i.isLt; omega)
    have h2 := bar_pct_eq (i.val + 1) (by have := i.isLt; omega)
    rw [h1, h2]
    have := i.isLt
    simp only [Int.ofNat_eq_coe]
    omega
  · exact bar_pct_eq 0 (by omega)
  · exact bar_pct_eq 36 (by omega)
  · intro i
    rw [hp i]
    have := i.isLt
    simp only [Int.ofNat_eq_coe]
    omega

/-! ## Random content -/

theorem getD_hex_mem (v : Nat) : hexDigits.toList.getD (v % 16) '0' ∈ hexDigits.toList := by
  have h : v % 16 < 16 := Nat.mod_lt _ (by decide)
  generalize v % 16 = k at h
  interval_cases k <;> decide

theorem random_hex_from_succ (n : Nat) (g : Rng) :
    random_hex_from (n + 1) g = random_hex_step (random_hex_from n g) n := by
  simp [random_hex_from, List.range_succ, List.foldl_append]

theorem random_hex_from_spec (n : Nat) (g : Rng) :
    (random_hex_from n g).1.length = n ∧ is_hex (random_hex_from n g).1
    ∧ (random_hex_from n g).2 = { g with pos := g.pos + n } := by
  induction n with
  | zero =>
    refine ⟨rfl, ?_, rfl⟩
    intro c hc
    simp [random_hex_from] at hc
  | succ n ih =>
    obtain ⟨h1, h2, h3⟩ := ih
    rw [random_hex_from_succ]
    refine ⟨?_, ?_, ?_⟩
    · simp [random_hex_step, String.length_push, h1]
    · intro c hc
      simp only [random_hex_step, String.toList, String.data_push, List.mem_append,
        List.mem_singleton] at hc
      rcases hc with hc | hc
      · exact h2 c hc
      · rw [hc]
        exact getD_hex_mem _
    · simp [random_hex_step, h3, Rng.next, Nat.add_assoc]

theorem fake_image_buf_succ (n : Nat) (g : Rng) :
    fake_image_buf (n + 1) g = fake_image_step (fake_image_buf n g) n := by
  simp [fake_image_buf, List.range_succ, List.foldl_append]

theorem fake_image_buf_spec (total : Nat) (g : Rng) :
    (fake_image_buf total g).1.length = total
    ∧ (fake_image_buf total g).2 = { g with pos := g.pos + total } := by
  induction total with
  | zero => exact ⟨rfl, rfl⟩
  | succ n ih =>
    obtain ⟨h1, h3⟩ := ih
    rw [fake_image_buf_succ]
    exact ⟨by simp [fake_image_step, h1], by simp [fake_image_step, h3, Nat.add_assoc]⟩

/-! ## The setup phases, one by one -/

theorem run_prelude_eq (w : World) : run_prelude w = emit prelude_events w := by
  simp [run_prelude, print_header, prelude_events, slow_print_eq, cout_eq, emit_emit, sleep_ms]

theorem get_of_eq_some {α : Type} {o : Option α} {x : α} (h : o.isSome = true)
    (e : o = some x) : o.get h = x := by
  subst e
  rfl

theorem reserve_small (limit n : Nat) (w : World) (h1 : n ≤ limit) (h2 : n ≤ 65536) :
    reserve_ok limit n w = true := by
  simp [reserve_ok, heap_limit, h1]
  omega

theorem fake_image_run_eq (path : String) (kb : Nat) (w : World) :
    fake_image_run path (kb * 1024 % 2 ^ 64) w =
      { w with
        fs := fs_put w.fs path (image_bytes kb w.imgRng),
        imgRng := image_rng kb w.imgRng,
        trace := w.trace
          ++ [Event.write path (image_bytes kb w.imgRng)
                (ofstream_good path (image_bytes kb w.imgRng) w.fs)] } := rfl

theorem create_fake_image_eq (path : String) (kb : Nat) (w : World)
    (h : reserve_ok vector_max_size (kb * 1024 % 2 ^ 64) w = true) :
    create_fake_image path kb w =
      some { w with
        fs := fs_put w.fs path (image_bytes kb w.imgRng),
        imgRng := image_rng kb w.imgRng,
        trace := w.trace
          ++ [Event.write path (image_bytes kb w.imgRng)
                (ofstream_good path (image_bytes kb w.imgRng) w.fs)] } := by
  unfold create_fake_image
  simp only [h, if_true]
  rw [fake_image_run_eq]

theorem create_fake_image_none (path : String) (kb : Nat) (w : World)
    (h : reserve_ok vector_max_size (kb * 1024 % 2 ^ 64) w = false) :
    create_fake_image path kb w = none := by
  unfold create_fake_image
  simp only [h]
  rfl

theorem random_hex_eq (n : Nat) (w : World) (h : reserve_ok string_max_size n w = true) :
    random_hex n w =
      some ((random_hex_from n w.hexRng).1, { w with hexRng := (random_hex_from n w.hexRng).2 }) := by
  unfold random_hex
  simp only [h, if_true]
  rfl

theorem random_hex_get (n : Nat) (w : World) (h : (random_hex n w).isSome = true) :
    (random_hex n w).get h =
      ((random_hex_from n w.hexRng).1, { w with hexRng := (random_hex_from n w.hexRng).2 }) := by
  have hr : reserve_ok string_max_size n w = true := by
    cases hc : reserve_ok string_max_size n w
    · simp [random_hex, hc] at h
    · rfl
  exact get_of_eq_some h (random_hex_eq n w hr)

theorem create_fake_image_get (path : String) (kb : Nat) (w : World)
    (h : (create_fake_image path kb w).isSome = true) :
    (create_fake_image path kb w).get h =
      { w with
        fs := fs_put w.fs path (image_bytes kb w.imgRng),
        imgRng := image_rng kb w.imgRng,
        trace := w.trace
          ++ [Event.write path (image_bytes kb w.imgRng)
                (ofstream_good path (image_bytes kb w.imgRng) w.fs)] } := by
  have hr : reserve_ok vector_max_size (kb * 1024 % 2 ^ 64) w = true := by
    cases hc : reserve_ok vector_max_size (kb * 1024 % 2 ^ 64) w
    · rw [create_fake_image_none path kb w hc] at h
      cases h
    · rfl
  exact get_of_eq_some h (create_fake_image_eq path kb w hr)

theorem step1_eq (envdir : String) (w : World) :
    step1_image envdir w =
      { w with
        fs := fs_put w.fs (envdir ++ "/4d-kernel.img") (img_of w),
        imgRng := img_rng_after w,
        trace := w.trace ++ phase1_events envdir (img_of w)
          (ofstream_good (envdir ++ "/4d-kernel.img") (img_of w) w.fs) } := by
  simp only [step1_image, create_fake_image_get, slow_print_eq, progress_bar_eq, emit, sleep_ms]
  simp only [phase1_events, List.append_assoc, img_of, img_rng_after]

theorem step2_eq (envdir : String) (w : World) :
    step2_initramfs envdir w =
      { w with
        fs := fs_put w.fs (envdir ++ "/4d-initramfs.cpio.gz") initramfs,
        trace := w.trace ++ phase2_events envdir
          (ofstream_good (envdir ++ "/4d-initramfs.cpio.gz") initramfs w.fs) } := by
  simp [step2_initramfs, phase2_events, write_file, ofstream_put, initramfs, slow_print_eq,
    progress_bar_eq, emit, sleep_ms, List.append_assoc]

theorem step3_eq (envdir : String) (w : World) :
    step3_config envdir w =
      { w with
        fs := fs_put w.fs (envdir ++ "/4d.conf") conf,
        trace := w.trace
          ++ phase3_events envdir (ofstream_good (envdir ++ "/4d.conf") conf w.fs) } := by
  simp [step3_config, phase3_events, write_file, ofstream_put, slow_print_eq,
    emit, sleep_ms, List.append_assoc]

theorem step4_eq (envdir : String) (w : World) :
    step4_artifact envdir w =
      { w with
        fs := fs_put w.fs (envdir ++ "/artifact.hex") (art_of w ++ "\n"),
        hexRng := (random_hex_from 128 w.hexRng).2,
        trace := w.trace ++ phase4_events envdir (art_of w)
          (ofstream_good (envdir ++ "/artifact.hex") (art_of w ++ "\n") w.fs) } := by
  simp [step4_artifact, phase4_events, write_file, ofstream_put, random_hex_get, art_of,
    slow_print_eq, progress_bar_eq, emit, sleep_ms, List.append_assoc]

theorem step5_eq (envdir : String) (w : World) :
    step5_service envdir w =
      { w with
        fs := fs_put w.fs (envdir ++ "/4d-kernel.service.sample") svc,
        trace := w.trace ++ phase5_events envdir
          (ofstream_good (envdir ++ "/4d-kernel.service.sample") svc w.fs) } := by
  simp [step5_service, phase5_events, write_file, ofstream_put, slow_print_eq,
    emit, sleep_ms, List.append_assoc]

theorem verify_module_eq (w : World) (im : Nat × String) :
    verify_module w im = emit (module_events im.1 im.2) w := by
  simp [verify_module, module_events, progress_bar_eq, cout_eq, emit_emit]

theorem step6_eq (w : World) : step6_modules w = emit phase6_events w := by
  simp only [step6_modules, foldl_emit _ _ verify_module_eq, slow_print_eq, emit_emit, sleep_ms]
  simp [phase6_events, modules, List.enum, List.enumFrom, List.flatMap_cons,
    List.append_assoc]

theorem step7_eq (w : World) :
    step7_integrity w =
      { w with
        hexRng := (random_hex_from 64 w.hexRng).2,
        trace := w.trace ++ phase7_events (random_hex_from 64 w.hexRng).1 } := by
  simp [step7_integrity, phase7_events, random_hex_get, slow_print_eq, progress_bar_eq, cout_eq,
    emit, sleep_ms, List.append_assoc]

theorem setup_steps_eq (envdir : String) (w : World) :
    setup_steps envdir w =
      { w with
        fs := setup_fs envdir w.fs (img_of w) (art_of w),
        imgRng := img_rng_after w,
        hexRng := hex_rng_after w,
        trace := w.trace ++ setup_trace envdir w.fs (img_of w) (art_of w) (sum_of w) } := by
  simp only [setup_steps, step1_eq, step2_eq, step3_eq, step4_eq, step5_eq, step6_eq, step7_eq,
    slow_print_eq, sleep_ms, emit, setup_fs, setup_trace, setup_events, hex_rng_after,
    img_of, img_rng_after, art_of, sum_of, List.append_assoc]

/-! ## The boot sequencer -/

theorem getline_eq (w : World) :
    getline w = (w.stdin.headD "",
      { w with stdin := w.stdin.tail, trace := w.trace ++ [Event.read (w.stdin.headD "")] }) := by
  unfold getline
  cases h : w.stdin <;> simp

theorem log_line_eq (color l : String) (w : World) :
    log_line color l w =
      { w with ticks := w.ticks + 1, trace := w.trace ++ [log_event w.clock w.ticks color l] } := by
  rfl

theorem boot_logs_eq (envdir : String) (w : World) :
    boot_logs envdir w =
      { w with
        ticks := w.ticks + 19,
        trace := w.trace
          ++ early.enum.map (fun kl => log_event w.clock (w.ticks + kl.1) BLUE kl.2)
          ++ (mid.enumFrom 6).map (fun kl => log_event w.clock (w.ticks + kl.1) CYAN kl.2)
          ++ [log_event w.clock (w.ticks + 11) RED "WARNING: Temporal skew detected on slice1"]
          ++ [log_event w.clock (w.ticks + 12) YELLOW "Attempting corrective drift compensation..."]
          ++ bar_events "drift-correct"
          ++ [log_event w.clock (w.ticks + 13) GREEN "Compensation complete. No data loss."]
          ++ ((late envdir).enumFrom 14).map
              (fun kl => log_event w.clock (w.ticks + kl.1) GREEN kl.2) } := by
  simp [boot_logs, early, mid, late, log_line_eq, progress_bar_eq, emit, sleep_ms,
    List.enum, List.enumFrom, Nat.add_assoc]

theorem run_branch_eq (b : Branch) (cmd : String) (w : World) :
    run_branch b cmd w =
      { w with
        hexRng := if b = Branch.dump then (random_hex_from 48 w.hexRng).2 else w.hexRng,
        trace := w.trace ++ [Event.print (branch_text b cmd w.hexRng)] } := by
  cases b <;> simp [run_branch, branch_text, random_hex_get, cout]

theorem branch_text_key (b : Branch) (cmd : String) (g : Rng) :
    (branch_text b cmd g).data[3]? =
      match b with
      | Branch.status => some '6'
      | Branch.dump => some '3'
      | Branch.noop => some '3'
      | Branch.fallback => some '1' := by
  cases b <;>
    simp [branch_text, status_block, CYAN, YELLOW, RED, ESC, String.data_append]

theorem branch_text_dump_noop (cmd : String) (g : Rng) :
    branch_text Branch.dump cmd g ≠ branch_text Branch.noop cmd g := by
  intro h
  have h5 := congrArg (fun s : String => s.data[5]?) h
  simp [branch_text, YELLOW, ESC, String.data_append] at h5

theorem branch_text_inj (b c : Branch) (cmd : String) (g : Rng)
    (h : branch_text b cmd g = branch_text c cmd g) : b = c := by
  have hb := branch_text_key b cmd g
  have hc := branch_text_key c cmd g
  rw [h] at hb
  rw [hb] at hc
  cases b <;> cases c <;> first
    | rfl
    | exact absurd h (branch_text_dump_noop cmd g)
    | exact absurd h.symm (branch_text_dump_noop cmd g)
    | (simp at hc)

theorem run_branch_inj (b c : Branch) (cmd : String) (w : World)
    (h : run_branch b cmd w = run_branch c cmd w) : b = c := by
  rw [run_branch_eq, run_branch_eq] at h
  have ht := congrArg World.trace h
  simp only [List.append_cancel_left_eq, List.cons.injEq, and_true, Event.print.injEq] at ht
  exact branch_text_inj b c cmd w.hexRng ht

/-- The branch the `if` chain takes on the line `cmd`. -/
theorem boot_dispatch_branch (cmd : String) (w : World) :
    boot_dispatch cmd w = run_branch
      (if cmd = "status" then Branch.status
        else if cmd = "dump artifact" then Branch.dump
        else if cmd = "" then Branch.noop
        else Branch.fallback) cmd w := by
  unfold boot_dispatch
  by_cases h1 : cmd = "status"
  · simp [h1]
  · by_cases h2 : cmd = "dump artifact"
    · simp [h2]
    · by_cases h3 : cmd = ""
      · subst h3
        rfl
      · have h4 : cmd.isEmpty = false := by
          cases h : cmd.isEmpty
          · rfl
          · exact absurd ((String.isEmpty_iff cmd).mp h) h3
        simp [h1, h2, h3, h4]

theorem simulate_boot_eq (envdir : String) (w : World) :
    simulate_boot envdir w =
      boot_dispatch (w.stdin.headD "")
        { boot_logs envdir w with
          stdin := w.stdin.tail,
          trace := (boot_logs envdir w).trace
            ++ [Event.print (MAG ++ "4d# " ++ RESET), Event.read (w.stdin.headD "")] } := by
  simp [simulate_boot, getline_eq, cout, boot_logs_eq]

theorem simulate_boot_trace (envdir : String) (w : World) (b : Branch)
    (h : boot_dispatch (w.stdin.headD "")
        { boot_logs envdir w with
          stdin := w.stdin.tail,
          trace := (boot_logs envdir w).trace
            ++ [Event.print (MAG ++ "4d# " ++ RESET), Event.read (w.stdin.headD "")] }
      = run_branch b (w.stdin.headD "")
        { boot_logs envdir w with
          stdin := w.stdin.tail,
          trace := (boot_logs envdir w).trace
            ++ [Event.print (MAG ++ "4d# " ++ RESET), Event.read (w.stdin.headD "")] }) :
    (simulate_boot envdir w).trace = (boot_logs envdir w).trace
      ++ [Event.print (MAG ++ "4d# " ++ RESET), Event.read (w.stdin.headD ""),
          Event.print (branch_text b (w.stdin.headD "") w.hexRng)] := by
  rw [simulate_boot_eq, h, run_branch_eq]
  simp [boot_logs_eq]

/-! ## Claims on the boot sequencer -/

/-- C1: the dispatch of the boot prompt is total and its branches exclude one
another.  For every line `cmd` exactly one of the four branch bodies is what
`boot_dispatch` runs: the status branch iff `cmd` is "status", the dump branch
iff it is "dump artifact", the no-op branch iff it is empty, the fallback branch
iff it is none of these; and `simulate_boot` dispatches the line it read, once. -/
theorem boot_dispatch_total (cmd : String) (w : World) :
    (∃! b : Branch, boot_dispatch cmd w = run_branch b cmd w)
    ∧ (boot_dispatch cmd w = run_branch Branch.status cmd w ↔ cmd = "status")
    ∧ (boot_dispatch cmd w = run_branch Branch.dump cmd w ↔ cmd = "dump artifact")
    ∧ (boot_dispatch cmd w = run_branch Branch.noop cmd w ↔ cmd = "")
    ∧ (boot_dispatch cmd w = run_branch Branch.fallback cmd w ↔
        cmd ≠ "status" ∧ cmd ≠ "dump artifact" ∧ cmd ≠ "")
    ∧ (∀ envdir : String, simulate_boot envdir w =
        boot_dispatch (w.stdin.headD "")
          { boot_logs envdir w with
            stdin := w.stdin.tail,
            trace := (boot_logs envdir w).trace
              ++ [Event.print (MAG ++ "4d# " ++ RESET), Event.read (w.stdin.headD "")] }) := by
  have hb := boot_dispatch_branch cmd w
  have key : ∀ b : Branch, boot_dispatch cmd w = run_branch b cmd w ↔
      b = (if cmd = "status" then Branch.status
        else if cmd = "dump artifact" then Branch.dump
        else if cmd = "" then Branch.noop
        else Branch.fallback) := by
    intro b
    constructor
    · intro h
      rw [hb] at h
      exact (run_branch_inj _ _ cmd w h).symm
    · intro h
      rw [h]
      exact hb
  refine ⟨⟨_, hb, fun b h => (key b).mp h⟩, ?_, ?_, ?_, ?_, fun envdir => simulate_boot_eq envdir w⟩
  · rw [key]
    by_cases h1 : cmd = "status"
    · simp [h1]
    · by_cases h2 : cmd = "dump artifact" <;> by_cases h3 : cmd = "" <;> simp [h1, h2, h3]
  · rw [key]
    by_cases h1 : cmd = "status"
    · subst h1
      decide
    · by_cases h2 : cmd = "dump artifact" <;> by_cases h3 : cmd = "" <;> simp [h1, h2, h3]
  · rw [key]
    by_cases h1 : cmd = "status"
    · subst h1
      decide
    · by_cases h2 : cmd = "dump artifact"
      · subst h2
        decide
      · by_cases h3 : cmd = "" <;> simp [h1, h2, h3]
  · rw [key]
    by_cases h1 : cmd = "status"
    · simp [h1]
    · by_cases h2 : cmd = "dump artifact" <;> by_cases h3 : cmd = "" <;> simp [h1, h2, h3]

/-- C7: when the line read at the boot prompt is not "status", not
"dump artifact" and not empty, `simulate_boot` prints, after its logs and its
prompt, the line itself immediately followed by ": command not found". -/
theorem fallback_response (envdir : String) (w : World) (cmd : String) (rest : List String)
    (hin : w.stdin = cmd :: rest)
    (h1 : cmd ≠ "status") (h2 : cmd ≠ "dump artifact") (h3 : cmd ≠ "") :
    (simulate_boot envdir w).trace = (boot_logs envdir w).trace
      ++ [Event.print (MAG ++ "4d# " ++ RESET), Event.read cmd,
          Event.print (RED ++ cmd ++ ": command not found (simulation)\n" ++ RESET)]
    ∧ RED ++ cmd ++ ": command not found (simulation)\n" ++ RESET
        = RED ++ (cmd ++ ": command not found") ++ (" (simulation)\n" ++ RESET) := by
  have hd : w.stdin.headD "" = cmd := by rw [hin]; rfl
  constructor
  · have := simulate_boot_trace envdir w Branch.fallback (by
      rw [hd, boot_dispatch_branch]
      simp [h1, h2, h3])
    rw [hd] at this
    exact this
  · apply String.ext
    simp [String.data_append]

/-- Witness of C7: the line "banana". -/
theorem fallback_response_witness :
    (simulate_boot "4d_kernel_env" (start_world empty_fs ["banana"])).trace
      = (boot_logs "4d_kernel_env" (start_world empty_fs ["banana"])).trace
        ++ [Event.print (MAG ++ "4d# " ++ RESET), Event.read "banana",
            Event.print (RED ++ "banana" ++ ": command not found (simulation)\n" ++ RESET)]
    ∧ RED ++ "banana" ++ ": command not found (simulation)\n" ++ RESET
        = RED ++ ("banana" ++ ": command not found") ++ (" (simulation)\n" ++ RESET) :=
  fallback_response "4d_kernel_env" (start_world empty_fs ["banana"]) "banana" [] rfl
    (by decide) (by decide) (by decide)

/-- C9: when the line read at the boot prompt is exactly "status",
`simulate_boot` prints the fixed status block, and the block contains
"All temporal slices nominal." -/
theorem status_response (envdir : String) (w : World) (rest : List String)
    (hin : w.stdin = "status" :: rest) :
    (simulate_boot envdir w).trace = (boot_logs envdir w).trace
      ++ [Event.print (MAG ++ "4d# " ++ RESET), Event.read "status", Event.print status_block]
    ∧ status_block = (CYAN ++ "4D Kernel Status: ") ++ "All temporal slices nominal."
        ++ ("\n" ++ "Uptime: 0 days, 0:00:12 (simulated)\n" ++ "Active workers: 16\n" ++ RESET) := by
  have hd : w.stdin.headD "" = "status" := by rw [hin]; rfl
  constructor
  · have := simulate_boot_trace envdir w Branch.status (by
      rw [hd, boot_dispatch_branch]
      simp)
    rw [hd] at this
    exact this
  · decide

/-- Witness of C9: a run whose only input line is "status". -/
theorem status_response_witness :
    (simulate_boot "4d_kernel_env" (start_world empty_fs ["status"])).trace
      = (boot_logs "4d_kernel_env" (start_world empty_fs ["status"])).trace
        ++ [Event.print (MAG ++ "4d# " ++ RESET), Event.read "status", Event.print status_block]
    ∧ status_block = (CYAN ++ "4D Kernel Status: ") ++ "All temporal slices nominal."
        ++ ("\n" ++ "Uptime: 0 days, 0:00:12 (simulated)\n" ++ "Active workers: 16\n" ++ RESET) :=
  status_response "4d_kernel_env" (start_world empty_fs ["status"]) [] rfl

/-! ## The environment directory -/

theorem sys_mkdir_cases (d : String) (fs : FS) :
    sys_mkdir d fs = (-1, fs) ∨
      (fs d = none ∧ d ≠ "" ∧ sys_mkdir d fs = (0, fs.set d Node.dir)) := by
  unfold sys_mkdir
  by_cases h1 : (d == "") = true
  · rw [if_pos h1]
    exact Or.inl rfl
  · rw [if_neg h1]
    by_cases h2 : (fs d).isSome = true
    · rw [if_pos h2]
      exact Or.inl rfl
    · rw [if_neg h2]
      by_cases h3 : (parentOk d fs && (fs.room d).isSome) = true
      · rw [if_pos h3]
        refine Or.inr ⟨?_, ?_, rfl⟩
        · cases h : fs d with
          | none => rfl
          | some n =>
            rw [h] at h2
            exact absurd rfl h2
        · intro hd
          exact h1 (by rw [hd]; rfl)
      · rw [if_neg h3]
        exact Or.inl rfl

theorem sys_mkdir_taken (d : String) (fs : FS) (h : (fs d).isSome) :
    sys_mkdir d fs = (-1, fs) := by
  unfold sys_mkdir
  by_cases h1 : d = "" <;> simp [h1, h]

theorem ensure_dir_snd (d : String) (w : World) :
    (ensure_dir d w).2 =
      { w with fs := (sys_mkdir d w.fs).2,
               trace := w.trace ++ [Event.mkdir d (sys_mkdir d w.fs).1] } := by
  unfold ensure_dir
  simp only []
  split <;> rfl

theorem ensure_dir_true_iff (d : String) (w : World) :
    (ensure_dir d w).1 = true ↔ (sys_mkdir d w.fs).2 d = some Node.dir := by
  unfold ensure_dir
  simp only []
  rcases sys_mkdir_cases d w.fs with h | ⟨_, _, h⟩
  · rw [h]
    by_cases hd : w.fs d = some Node.dir <;> simp [hd]
  · rw [h]
    simp [FS.set]

theorem ensure_dir_false (d : String) (w : World) (h : (ensure_dir d w).1 = false) :
    sys_mkdir d w.fs = (-1, w.fs) := by
  rcases sys_mkdir_cases d w.fs with h1 | ⟨_, _, h1⟩
  · exact h1
  · have : (ensure_dir d w).1 = true := by
      rw [ensure_dir_true_iff, h1]
      simp [FS.set]
    rw [this] at h
    cases h

/-- On an existing directory `ensure_dir` answers true although `mkdir` fails,
and the file system is untouched. -/
theorem ensure_dir_existing (d : String) (w : World) (h : w.fs d = some Node.dir) :
    (ensure_dir d w).1 = true ∧ (sys_mkdir d w.fs).1 = -1 ∧ (ensure_dir d w).2.fs = w.fs := by
  have hm := sys_mkdir_taken d w.fs (by simp [h])
  refine ⟨?_, by rw [hm], by rw [ensure_dir_snd, hm]⟩
  rw [ensure_dir_true_iff, hm]
  exact h

/-! ## The whole run -/

theorem run_simulation_ok (w : World) (h : (ensure_dir envdir0 (run_prelude w)).1 = true) :
    run_simulation w = offer_boot envdir0 (setup_done w) := by
  simp [run_simulation, setup_done, h]

theorem run_simulation_fail (w : World) (h : (ensure_dir envdir0 (run_prelude w)).1 = false) :
    run_simulation w =
      slow_print (RED ++ "Failed to create environment directory: " ++ envdir0 ++ RESET) 4
        (ensure_dir envdir0 (run_prelude w)).2 := by
  simp [run_simulation, h]

theorem starts_with_y_iff (resp : String) :
    (!resp.isEmpty && (resp.get 0 == 'y' || resp.get 0 == 'Y')) = true ↔ starts_with_y resp := by
  unfold starts_with_y
  obtain ⟨l⟩ := resp
  cases l with
  | nil => simp [String.isEmpty_iff]
  | cons c cs =>
    have h1 : (String.mk (c :: cs)).isEmpty = false := by
      cases h : (String.mk (c :: cs)).isEmpty
      · rfl
      · have := (String.isEmpty_iff _).mp h
        simp [String.ext_iff] at this
    have h2 : (String.mk (c :: cs)).get 0 = c := rfl
    simp [h1, h2]

theorem offer_boot_yes (envdir : String) (w : World) (h : starts_with_y (w.stdin.headD "")) :
    offer_boot envdir w =
      finish (boot_path envdir (getline (cout "> "
        (slow_print (CYAN ++ "Would you like to simulate boot now? (y/N)" ++ RESET) 2 w))).2) := by
  have h' := (starts_with_y_iff _).mpr h
  unfold offer_boot finish
  simp only [getline_eq, slow_print_eq, cout_eq, emit, h', if_true]

theorem offer_boot_no (envdir : String) (w : World) (h : ¬ starts_with_y (w.stdin.headD "")) :
    offer_boot envdir w =
      finish (skip_path envdir (getline (cout "> "
        (slow_print (CYAN ++ "Would you like to simulate boot now? (y/N)" ++ RESET) 2 w))).2) := by
  have h' : (!(w.stdin.headD "").isEmpty &&
      ((w.stdin.headD "").get 0 == 'y' || (w.stdin.headD "").get 0 == 'Y')) = false := by
    cases hc : (!(w.stdin.headD "").isEmpty &&
      ((w.stdin.headD "").get 0 == 'y' || (w.stdin.headD "").get 0 == 'Y'))
    · rfl
    · exact absurd ((starts_with_y_iff _).mp hc) h
  unfold offer_boot finish
  simp only [getline_eq, slow_print_eq, cout_eq, emit, h']
  rfl

theorem setup_done_eq (w : World) :
    setup_done w =
      { w with
        fs := setup_fs envdir0 (sys_mkdir envdir0 w.fs).2 (img_of w) (art_of w),
        imgRng := img_rng_after w,
        hexRng := hex_rng_after w,
        trace := w.trace ++ prelude_events
          ++ [Event.mkdir envdir0 (sys_mkdir envdir0 w.fs).1]
          ++ setup_trace envdir0 (sys_mkdir envdir0 w.fs).2 (img_of w) (art_of w) (sum_of w) } := by
  simp only [setup_done, setup_steps_eq, ensure_dir_snd, run_prelude_eq, emit, List.append_assoc]
  rfl

theorem opt_in_prompt_eq (w : World) :
    opt_in_prompt w =
      (w.stdin.headD "",
        { w with
          fs := setup_fs envdir0 (sys_mkdir envdir0 w.fs).2 (img_of w) (art_of w),
          stdin := w.stdin.tail,
          imgRng := img_rng_after w,
          hexRng := hex_rng_after w,
          trace := w.trace ++ prelude_events
            ++ [Event.mkdir envdir0 (sys_mkdir envdir0 w.fs).1]
            ++ setup_trace envdir0 (sys_mkdir envdir0 w.fs).2 (img_of w) (art_of w) (sum_of w)
            ++ ask_events ++ [Event.read (w.stdin.headD "")] }) := by
  simp only [opt_in_prompt, getline_eq, slow_print_eq, cout_eq, emit, ask_events,
    setup_done_eq, List.append_assoc]

theorem simulate_boot_full (envdir : String) (w : World) :
    simulate_boot envdir w =
      { w with
        ticks := w.ticks + 19,
        stdin := w.stdin.tail,
        hexRng := if branch_of (w.stdin.headD "") = Branch.dump
          then (random_hex_from 48 w.hexRng).2 else w.hexRng,
        trace := w.trace ++ boot_events envdir w.clock w.ticks
          ++ [Event.print (MAG ++ "4d# " ++ RESET), Event.read (w.stdin.headD ""),
              Event.print (branch_text (branch_of (w.stdin.headD "")) (w.stdin.headD "")
                w.hexRng)] } := by
  rw [simulate_boot_eq, boot_dispatch_branch, run_branch_eq]
  simp only [boot_logs_eq, boot_events, branch_of, List.append_assoc, List.cons_append,
    List.nil_append]

theorem boot_path_trace (envdir : String) (w : World) :
    (finish (boot_path envdir w)).trace =
      w.trace ++ (slow_events (MAG ++ "Starting simulated boot..." ++ RESET)
        ++ (boot_events envdir w.clock w.ticks
          ++ [Event.print (MAG ++ "4d# " ++ RESET), Event.read (w.stdin.headD ""),
              Event.print (branch_text (branch_of (w.stdin.headD "")) (w.stdin.headD "")
                w.hexRng)]
          ++ slow_events (CYAN
              ++ "Simulation complete. Note: this was a local-only theatrical simulation."
              ++ RESET))) := by
  simp only [finish, boot_path, simulate_boot_full, slow_print_eq, emit, List.append_assoc]

theorem skip_path_trace (envdir : String) (w : World) :
    (finish (skip_path envdir w)).trace =
      w.trace ++ (slow_events (YELLOW ++ "Skipping boot simulation. Inspect files in ./"
          ++ envdir ++ RESET)
        ++ slow_events (CYAN
            ++ "Simulation complete. Note: this was a local-only theatrical simulation."
            ++ RESET)) := by
  simp only [finish, skip_path, slow_print_eq, emit, List.append_assoc]

/-- The two paths of the opt-in differ in what they print: the fourth
character typed is `5` on the boot path and `3` on the other. -/
theorem boot_skip_ne (envdir : String) (w : World) :
    finish (boot_path envdir w) ≠ finish (skip_path envdir w) := by
  intro h
  have ht := congrArg World.trace h
  rw [boot_path_trace, skip_path_trace] at ht
  have h3 := congrArg (fun l : List Event => l[3]?) (List.append_cancel_left ht)
  simp [slow_events, MAG, YELLOW, ESC, String.data_append] at h3
  exact absurd h3 (by decide)

theorem starts_with_y_get (resp : String) :
    starts_with_y resp ↔ resp ≠ "" ∧ (resp.get 0 = 'y' ∨ resp.get 0 = 'Y') := by
  unfold starts_with_y
  obtain ⟨l⟩ := resp
  cases l with
  | nil => simp
  | cons c cs =>
    have h2 : (String.mk (c :: cs)).get 0 = c := rfl
    simp [h2, String.ext_iff]

/-- C2: in a run whose environment directory could be created, the run goes
through the boot sequence (it is the boot path applied to the world in which the
reply was read, then the closing line) if and only if the reply is not empty and
starts with `y` or `Y`; for every other reply, the empty one included, it goes
through the skip path, which never calls `simulate_boot`.  The reply is the first
line waiting on standard input, or the empty string when there is none. -/
theorem opt_in_iff (w : World) (hdir : (ensure_dir envdir0 (run_prelude w)).1 = true) :
    (opt_in_prompt w).1 = w.stdin.headD ""
    ∧ (run_simulation w = finish (boot_path envdir0 (opt_in_prompt w).2)
        ↔ starts_with_y (opt_in_prompt w).1)
    ∧ (run_simulation w = finish (skip_path envdir0 (opt_in_prompt w).2)
        ↔ ¬ starts_with_y (opt_in_prompt w).1)
    ∧ (starts_with_y (opt_in_prompt w).1
        ↔ (opt_in_prompt w).1 ≠ "" ∧ ((opt_in_prompt w).1.get 0 = 'y' ∨ (opt_in_prompt w).1.get 0 = 'Y')) := by
  have hr : (opt_in_prompt w).1 = w.stdin.headD "" := by rw [opt_in_prompt_eq]
  have hs : (setup_done w).stdin = w.stdin := by rw [setup_done_eq]
  have hyes : starts_with_y (w.stdin.headD "") →
      run_simulation w = finish (boot_path envdir0 (opt_in_prompt w).2) := by
    intro h
    rw [run_simulation_ok w hdir, offer_boot_yes envdir0 (setup_done w) (by rw [hs]; exact h)]
    rfl
  have hno : ¬ starts_with_y (w.stdin.headD "") →
      run_simulation w = finish (skip_path envdir0 (opt_in_prompt w).2) := by
    intro h
    rw [run_simulation_ok w hdir, offer_boot_no envdir0 (setup_done w) (by rw [hs]; exact h)]
    rfl
  rw [hr]
  refine ⟨rfl, ⟨?_, hyes⟩, ⟨?_, hno⟩, starts_with_y_get _⟩
  · intro h
    by_contra hc
    exact boot_skip_ne envdir0 _ (h.symm.trans (hno hc))
  · intro h hc
    exact boot_skip_ne envdir0 _ ((hyes hc).symm.trans h)

/-- Witness of C2: on an empty file system the directory is created, and the
reply "yes" leads into the boot sequence. -/
theorem opt_in_iff_witness :
    (ensure_dir envdir0 (run_prelude world_yes)).1 = true
    ∧ run_simulation world_yes = finish (boot_path envdir0 (opt_in_prompt world_yes).2) :=
  ⟨by decide, (opt_in_iff world_yes (by decide)).2.1.mpr
    (by rw [(opt_in_iff world_yes (by decide)).1]; exact (Or.inl rfl))⟩

/-! ## Writes and reads of a trace -/

theorem file_writes_append (a b : List Event) :
    file_writes (a ++ b) = file_writes a ++ file_writes b := by
  simp [file_writes, List.filterMap_append]

theorem lines_read_append (a b : List Event) :
    lines_read (a ++ b) = lines_read a ++ lines_read b := by
  simp [lines_read, List.filterMap_append]

theorem file_writes_print (t : String) (l : List Event) :
    file_writes (Event.print t :: l) = file_writes l := rfl

theorem file_writes_mkdir (d : String) (r : Int) (l : List Event) :
    file_writes (Event.mkdir d r :: l) = file_writes l := rfl

theorem file_writes_read (t : String) (l : List Event) :
    file_writes (Event.read t :: l) = file_writes l := rfl

theorem file_writes_write (q c : String) (o : Bool) (l : List Event) :
    file_writes (Event.write q c o :: l) = q :: file_writes l := rfl

theorem file_writes_nil : file_writes [] = [] := rfl

theorem lines_read_print (t : String) (l : List Event) :
    lines_read (Event.print t :: l) = lines_read l := rfl

theorem lines_read_mkdir (d : String) (r : Int) (l : List Event) :
    lines_read (Event.mkdir d r :: l) = lines_read l := rfl

theorem lines_read_read (t : String) (l : List Event) :
    lines_read (Event.read t :: l) = t :: lines_read l := rfl

theorem lines_read_write (q c : String) (o : Bool) (l : List Event) :
    lines_read (Event.write q c o :: l) = lines_read l := rfl

theorem lines_read_nil : lines_read [] = [] := rfl

theorem file_writes_prints (ss : List String) : file_writes (ss.map Event.print) = [] := by
  induction ss with
  | nil => rfl
  | cons a l ih => simpa only [List.map_cons, file_writes_print] using ih

theorem lines_read_prints (ss : List String) : lines_read (ss.map Event.print) = [] := by
  induction ss with
  | nil => rfl
  | cons a l ih => simpa only [List.map_cons, lines_read_print] using ih

theorem slow_events_prints (s : String) :
    slow_events s = (s.toList.map String.singleton ++ ["\n"]).map Event.print := by
  simp [slow_events]

theorem frame_events_prints (label : String) (steps i : Nat) (pct : Int) :
    ∃ ss : List String, frame_events label steps i pct = ss.map Event.print := by
  unfold frame_events
  by_cases h : label.isEmpty
  · exact ⟨["\r" ++ CYAN, "[" ++ rep i '#' ++ rep (steps - i) '-' ++ "] "
      ++ setw 3 (toString pct) ++ "%" ++ RESET], by simp [h]⟩
  · exact ⟨["\r" ++ CYAN, label ++ " ", "[" ++ rep i '#' ++ rep (steps - i) '-' ++ "] "
      ++ setw 3 (toString pct) ++ "%" ++ RESET], by simp [h]⟩

theorem flatMap_prints {α : Type} (f : α → List Event)
    (h : ∀ a, ∃ ss : List String, f a = ss.map Event.print) (l : List α) :
    ∃ ss : List String, l.flatMap f = ss.map Event.print := by
  induction l with
  | nil => exact ⟨[], rfl⟩
  | cons a l ih =>
    obtain ⟨s1, h1⟩ := h a
    obtain ⟨s2, h2⟩ := ih
    exact ⟨s1 ++ s2, by simp [List.flatMap_cons, h1, h2]⟩

theorem bar_events_prints (label : String) :
    ∃ ss : List String, bar_events label = ss.map Event.print := by
  obtain ⟨ss, h⟩ := flatMap_prints
    (fun i => frame_events label 36 i (Int.ofNat (100 * i / 36)))
    (fun i => frame_events_prints label 36 i _) (List.range 37)
  exact ⟨ss ++ ["\n"], by rw [bar_events, h]; simp⟩

theorem file_writes_slow (s : String) : file_writes (slow_events s) = [] := by
  rw [slow_events_prints, file_writes_prints]

theorem lines_read_slow (s : String) : lines_read (slow_events s) = [] := by
  rw [slow_events_prints, lines_read_prints]

theorem file_writes_bar (label : String) : file_writes (bar_events label) = [] := by
  obtain ⟨ss, h⟩ := bar_events_prints label
  rw [h, file_writes_prints]

theorem lines_read_bar (label : String) : lines_read (bar_events label) = [] := by
  obtain ⟨ss, h⟩ := bar_events_prints label
  rw [h, lines_read_prints]

theorem file_writes_prelude : file_writes prelude_events = [] := by
  simp only [prelude_events, file_writes_append, file_writes_slow, file_writes_print,
    file_writes_nil, List.append_nil]

theorem lines_read_prelude : lines_read prelude_events = [] := by
  simp only [prelude_events, lines_read_append, lines_read_slow, lines_read_print,
    lines_read_nil, List.append_nil]

/-! ## Failure of the environment directory -/

/-- C3: when `ensure_dir` reports failure for the environment directory, the
run is over at once.  All it adds to the world it started in is the trace of
its opening lines, of the failed `mkdir` and of the line reporting the failure:
no setup phase runs, no file is written, no line is read, the boot sequence is
not entered, the generators are not used; the file system is the one the failed
creation left, which is the one the run started with, and the path of the
environment directory is not a directory in it. -/
theorem abort_on_dir_failure (w : World)
    (hfail : (ensure_dir envdir0 (run_prelude w)).1 = false) :
    run_simulation w =
      emit (prelude_events ++ [Event.mkdir envdir0 (-1)]
        ++ slow_events (RED ++ "Failed to create environment directory: " ++ envdir0 ++ RESET)) w
    ∧ (run_simulation w).fs = (ensure_dir envdir0 (run_prelude w)).2.fs
    ∧ (run_simulation w).fs = w.fs
    ∧ (run_simulation w).stdin = w.stdin
    ∧ file_writes (run_simulation w).trace = file_writes w.trace
    ∧ lines_read (run_simulation w).trace = lines_read w.trace
    ∧ w.fs envdir0 ≠ some Node.dir := by
  have hm : sys_mkdir envdir0 w.fs = (-1, w.fs) := by
    have := ensure_dir_false envdir0 (run_prelude w) hfail
    simpa [run_prelude_eq, emit] using this
  have hrun : run_simulation w =
      emit (prelude_events ++ [Event.mkdir envdir0 (-1)]
        ++ slow_events (RED ++ "Failed to create environment directory: " ++ envdir0 ++ RESET)) w := by
    rw [run_simulation_fail w hfail, ensure_dir_snd, slow_print_eq, run_prelude_eq]
    simp [emit, hm, List.append_assoc]
  have hnd : w.fs envdir0 ≠ some Node.dir := by
    intro hd
    have := (ensure_dir_existing envdir0 (run_prelude w) (by simpa [run_prelude_eq, emit] using hd)).1
    rw [this] at hfail
    cases hfail
  refine ⟨hrun, ?_, ?_, ?_, ?_, ?_, hnd⟩
  · rw [hrun, ensure_dir_snd, run_prelude_eq]
    simp [emit, hm]
  · rw [hrun]
    rfl
  · rw [hrun]
    rfl
  · rw [hrun]
    simp only [emit, file_writes_append, file_writes_prelude, file_writes_slow,
      file_writes_mkdir, file_writes_nil, List.append_nil]
  · rw [hrun]
    simp only [emit, lines_read_append, lines_read_prelude, lines_read_slow,
      lines_read_mkdir, lines_read_nil, List.append_nil]

/-- Witness of C3: a regular file occupies the name of the environment directory. -/
theorem abort_on_dir_failure_witness :
    fs_blocked envdir0 = some (Node.file "x")
    ∧ (ensure_dir envdir0 (run_prelude world_blocked)).1 = false
    ∧ (run_simulation world_blocked).fs = fs_blocked
    ∧ (run_simulation world_blocked).stdin = ["y", "status"]
    ∧ file_writes (run_simulation world_blocked).trace = [] :=
  ⟨by decide, by decide,
    (abort_on_dir_failure world_blocked (by decide)).2.2.1,
    (abort_on_dir_failure world_blocked (by decide)).2.2.2.1,
    (abort_on_dir_failure world_blocked (by decide)).2.2.2.2.1⟩

/-! ## The file system during the setup -/

theorem fs_put_other (fs : FS) (q c x : String) (h : x ≠ q) : fs_put fs q c x = fs x := by
  unfold fs_put
  split
  · simp [FS.set, h]
  · rfl

theorem fs_put_room (fs : FS) (q c : String) : (fs_put fs q c).room = fs.room := by
  unfold fs_put
  split <;> rfl

/-- An open that succeeds leaves a regular file holding what there was room for. -/
theorem fs_put_open (fs : FS) (q c : String) (h : ofstream_open q fs = true) :
    fs_put fs q c q
      = some (Node.file (String.mk (c.toList.take ((fs.room q).getD 0)))) := by
  simp [fs_put, h, FS.set]

/-- An open that fails changes nothing. -/
theorem fs_put_closed (fs : FS) (q c : String) (h : ofstream_open q fs = false) :
    fs_put fs q c = fs := by
  simp [fs_put, h]

theorem ofstream_good_iff (q c : String) (fs : FS) :
    ofstream_good q c fs = true
      ↔ ofstream_open q fs = true ∧ c.length ≤ (fs.room q).getD 0 := by
  simp [ofstream_good]

/-- A stream that is still good has written the whole content. -/
theorem fs_put_good (fs : FS) (q c : String) (h : ofstream_good q c fs = true) :
    fs_put fs q c q = some (Node.file c) := by
  obtain ⟨ho, hl⟩ := (ofstream_good_iff q c fs).mp h
  rw [fs_put_open fs q c ho]
  have ht : c.toList.take ((fs.room q).getD 0) = c.toList :=
    List.take_of_length_le (by simpa using hl)
  rw [ht]
  rfl

/-- A write attempt never replaces a directory. -/
theorem fs_put_dir (fs : FS) (q c x : String) (h : fs x = some Node.dir) :
    fs_put fs q c x = some Node.dir := by
  by_cases hx : x = q
  · subst hx
    have : ofstream_open x fs = false := by simp [ofstream_open, h]
    rw [fs_put_closed fs x c this]
    exact h
  · rw [fs_put_other fs q c x hx, h]

/-- A write attempt never puts a directory where there was none. -/
theorem fs_put_not_dir (fs : FS) (q c : String) (h : fs q ≠ some Node.dir) :
    fs_put fs q c q ≠ some Node.dir := by
  cases ho : ofstream_open q fs
  · rw [fs_put_closed fs q c ho]
    exact h
  · rw [fs_put_open fs q c ho]
    simp

theorem parentOk_put (fs : FS) (q c p : String) (hpar : parentDir p ≠ some q) :
    parentOk p (fs_put fs q c) = parentOk p fs := by
  unfold parentOk
  cases h : parentDir p with
  | none => rfl
  | some d =>
    have hd : d ≠ q := fun e => hpar (by rw [h, e])
    simp only []
    rw [fs_put_other fs q c d hd]

theorem ofstream_open_put (fs : FS) (q c p : String) (hpq : p ≠ q)
    (hpar : parentDir p ≠ some q) :
    ofstream_open p (fs_put fs q c) = ofstream_open p fs := by
  unfold ofstream_open
  rw [parentOk_put fs q c p hpar, fs_put_other fs q c p hpq, fs_put_room]

/-- Whether a write goes through does not depend on a write attempted before
on another path that is not its parent. -/
theorem ofstream_good_put (fs : FS) (q c p d : String) (hpq : p ≠ q)
    (hpar : parentDir p ≠ some q) :
    ofstream_good p d (fs_put fs q c) = ofstream_good p d fs := by
  unfold ofstream_good
  rw [ofstream_open_put fs q c p hpq hpar, fs_put_room]

/-- What a write leaves at its path does not depend on a write attempted
before on another path that is not its parent. -/
theorem fs_put_at (fs : FS) (q c p d : String) (hpq : p ≠ q) (hpar : parentDir p ≠ some q) :
    fs_put (fs_put fs q c) p d p = fs_put fs p d p := by
  cases ho : ofstream_open p fs
  · rw [fs_put_closed fs p d ho,
      fs_put_closed _ p d (by rw [ofstream_open_put fs q c p hpq hpar]; exact ho),
      fs_put_other fs q c p hpq]
  · rw [fs_put_open fs p d ho,
      fs_put_open _ p d (by rw [ofstream_open_put fs q c p hpq hpar]; exact ho), fs_put_room]

theorem sys_mkdir_dir (d : String) (fs : FS) (x : String) (h : fs x = some Node.dir) :
    (sys_mkdir d fs).2 x = some Node.dir := by
  rcases sys_mkdir_cases d fs with h1 | ⟨hn, _, h1⟩
  · rw [h1]
    exact h
  · rw [h1]
    by_cases hx : x = d
    · simp [FS.set, hx]
    · simp [FS.set, hx, h]

theorem sys_mkdir_other (d : String) (fs : FS) (x : String) (h : x ≠ d) :
    (sys_mkdir d fs).2 x = fs x := by
  rcases sys_mkdir_cases d fs with h1 | ⟨_, _, h1⟩
  · rw [h1]
  · rw [h1]
    simp [FS.set, h]

theorem sys_mkdir_room (d : String) (fs : FS) : (sys_mkdir d fs).2.room = fs.room := by
  rcases sys_mkdir_cases d fs with h1 | ⟨_, _, h1⟩
  · rw [h1]
  · rw [h1]
    rfl

theorem artifact_path_facts (p : String) (hp : p ∈ artifact_paths envdir0) :
    p ≠ "" ∧ p ≠ envdir0 ∧ parentDir p = some envdir0 := by
  simp only [artifact_paths, List.mem_cons, List.mem_singleton, List.not_mem_nil, or_false] at hp
  rcases hp with h | h | h | h | h <;> (rw [h]; decide)

theorem artifacts_path (envdir img art p c : String)
    (h : (p, c) ∈ artifacts envdir img art) : p ∈ artifact_paths envdir :=
  List.mem_map_of_mem Prod.fst h

theorem artifact_paths_content (envdir img art p : String) (h : p ∈ artifact_paths envdir) :
    ∃ c, (p, c) ∈ artifacts envdir img art := by
  obtain ⟨⟨q, c⟩, hq, he⟩ :=
    List.mem_map.mp (show p ∈ (artifacts envdir img art).map Prod.fst from h)
  exact ⟨c, by rw [← he]; exact hq⟩

theorem granted_room (fs fs2 : FS) (p c : String) (h : fs.room = fs2.room) :
    granted fs p c = granted fs2 p c := by
  unfold granted
  rw [h]

/-- In an environment directory that is a directory, the stream of a write to an artifact is
good exactly when no directory occupies the name and the operating system
grants the write. -/
theorem good_artifact (fs : FS) (p c : String) (hp : p ∈ artifact_paths envdir0)
    (hd : fs envdir0 = some Node.dir) :
    ofstream_good p c fs = (fs p != some Node.dir && granted fs p c) := by
  obtain ⟨h1, _, h3⟩ := artifact_path_facts p hp
  simp [ofstream_good, ofstream_open, parentOk, granted, h1, h3, hd, Bool.and_assoc]

theorem setup_fs_dir (fs : FS) (img art x : String) (h : fs x = some Node.dir) :
    setup_fs envdir0 fs img art x = some Node.dir := by
  unfold setup_fs
  exact fs_put_dir _ _ _ _ (fs_put_dir _ _ _ _ (fs_put_dir _ _ _ _ (fs_put_dir _ _ _ _
    (fs_put_dir _ _ _ _ h))))

/-- The setup touches no path but those of the five artifacts. -/
theorem setup_fs_other (fs : FS) (img art x : String) (h : x ∉ artifact_paths envdir0) :
    setup_fs envdir0 fs img art x = fs x := by
  simp only [artifact_paths, List.mem_cons, List.mem_singleton, List.not_mem_nil, or_false,
    not_or] at h
  obtain ⟨h1, h2, h3, h4, h5⟩ := h
  unfold setup_fs
  rw [fs_put_other _ _ _ _ h5, fs_put_other _ _ _ _ h4, fs_put_other _ _ _ _ h3,
    fs_put_other _ _ _ _ h2, fs_put_other _ _ _ _ h1]

/-- What the setup leaves at the name of an artifact is what the write of that
artifact alone would leave there. -/
theorem setup_fs_at (fs : FS) (img art : String) :
    ∀ p c, (p, c) ∈ artifacts envdir0 img art →
      setup_fs envdir0 fs img art p = fs_put fs p c p := by
  intro p c hpc
  simp only [artifacts, List.mem_cons, List.mem_singleton, List.not_mem_nil, or_false,
    Prod.mk.injEq] at hpc
  unfold setup_fs
  rcases hpc with h | h | h | h | h
  · rw [h.1, h.2]
    show fs_put _ _ _ (envdir0 ++ "/4d-kernel.img") = fs_put fs _ img _
    rw [fs_put_other _ _ _ _ (by decide), fs_put_other _ _ _ _ (by decide),
      fs_put_other _ _ _ _ (by decide), fs_put_other _ _ _ _ (by decide)]
  · rw [h.1, h.2]
    show fs_put _ _ _ (envdir0 ++ "/4d-initramfs.cpio.gz") = fs_put fs _ initramfs _
    rw [fs_put_other _ _ _ _ (by decide), fs_put_other _ _ _ _ (by decide),
      fs_put_other _ _ _ _ (by decide),
      fs_put_at fs (envdir0 ++ "/4d-kernel.img") img (envdir0 ++ "/4d-initramfs.cpio.gz")
        initramfs (by decide) (by decide)]
  · rw [h.1, h.2]
    show fs_put _ _ _ (envdir0 ++ "/4d.conf") = fs_put fs _ conf _
    rw [fs_put_other _ _ _ _ (by decide), fs_put_other _ _ _ _ (by decide),
      fs_put_at _ (envdir0 ++ "/4d-initramfs.cpio.gz") initramfs (envdir0 ++ "/4d.conf")
        conf (by decide) (by decide),
      fs_put_at fs (envdir0 ++ "/4d-kernel.img") img (envdir0 ++ "/4d.conf")
        conf (by decide) (by decide)]
  · rw [h.1, h.2]
    show fs_put _ _ _ (envdir0 ++ "/artifact.hex") = fs_put fs _ (art ++ "\n") _
    rw [fs_put_other _ _ _ _ (by decide),
      fs_put_at _ (envdir0 ++ "/4d.conf") conf (envdir0 ++ "/artifact.hex")
        (art ++ "\n") (by decide) (by decide),
      fs_put_at _ (envdir0 ++ "/4d-initramfs.cpio.gz") initramfs (envdir0 ++ "/artifact.hex")
        (art ++ "\n") (by decide) (by decide),
      fs_put_at fs (envdir0 ++ "/4d-kernel.img") img (envdir0 ++ "/artifact.hex")
        (art ++ "\n") (by decide) (by decide)]
  · rw [h.1, h.2]
    show fs_put _ _ _ (envdir0 ++ "/4d-kernel.service.sample") = fs_put fs _ svc _
    rw [fs_put_at _ (envdir0 ++ "/artifact.hex") (art ++ "\n")
        (envdir0 ++ "/4d-kernel.service.sample") svc (by decide) (by decide),
      fs_put_at _ (envdir0 ++ "/4d.conf") conf (envdir0 ++ "/4d-kernel.service.sample")
        svc (by decide) (by decide),
      fs_put_at _ (envdir0 ++ "/4d-initramfs.cpio.gz") initramfs
        (envdir0 ++ "/4d-kernel.service.sample") svc (by decide) (by decide),
      fs_put_at fs (envdir0 ++ "/4d-kernel.img") img (envdir0 ++ "/4d-kernel.service.sample")
        svc (by decide) (by decide)]

/-- The setup puts no directory where there was none. -/
theorem setup_fs_not_dir (fs : FS) (img art p : String)
    (hp : p ∈ artifact_paths envdir0) (hn : fs p ≠ some Node.dir) :
    setup_fs envdir0 fs img art p ≠ some Node.dir := by
  obtain ⟨c, hpc⟩ := artifact_paths_content envdir0 img art p hp
  rw [setup_fs_at fs img art p c hpc]
  exact fs_put_not_dir fs p c hn

/-- The states of the five streams of the setup, told on the file system the
setup starts on. -/
theorem setup_trace_eq (fs : FS) (img art sum : String) :
    setup_trace envdir0 fs img art sum
      = setup_events envdir0 img art sum
          (ofstream_good (envdir0 ++ "/4d-kernel.img") img fs)
          (ofstream_good (envdir0 ++ "/4d-initramfs.cpio.gz") initramfs fs)
          (ofstream_good (envdir0 ++ "/4d.conf") conf fs)
          (ofstream_good (envdir0 ++ "/artifact.hex") (art ++ "\n") fs)
          (ofstream_good (envdir0 ++ "/4d-kernel.service.sample") svc fs) := by
  unfold setup_trace
  rw [ofstream_good_put _ (envdir0 ++ "/artifact.hex") (art ++ "\n")
        (envdir0 ++ "/4d-kernel.service.sample") svc (by decide) (by decide),
    ofstream_good_put _ (envdir0 ++ "/4d.conf") conf
        (envdir0 ++ "/4d-kernel.service.sample") svc (by decide) (by decide),
    ofstream_good_put _ (envdir0 ++ "/4d-initramfs.cpio.gz") initramfs
        (envdir0 ++ "/4d-kernel.service.sample") svc (by decide) (by decide),
    ofstream_good_put fs (envdir0 ++ "/4d-kernel.img") img
        (envdir0 ++ "/4d-kernel.service.sample") svc (by decide) (by decide),
    ofstream_good_put _ (envdir0 ++ "/4d.conf") conf
        (envdir0 ++ "/artifact.hex") (art ++ "\n") (by decide) (by decide),
    ofstream_good_put _ (envdir0 ++ "/4d-initramfs.cpio.gz") initramfs
        (envdir0 ++ "/artifact.hex") (art ++ "\n") (by decide) (by decide),
    ofstream_good_put fs (envdir0 ++ "/4d-kernel.img") img
        (envdir0 ++ "/artifact.hex") (art ++ "\n") (by decide) (by decide),
    ofstream_good_put _ (envdir0 ++ "/4d-initramfs.cpio.gz") initramfs
        (envdir0 ++ "/4d.conf") conf (by decide) (by decide),
    ofstream_good_put fs (envdir0 ++ "/4d-kernel.img") img
        (envdir0 ++ "/4d.conf") conf (by decide) (by decide),
    ofstream_good_put fs (envdir0 ++ "/4d-kernel.img") img
        (envdir0 ++ "/4d-initramfs.cpio.gz") initramfs (by decide) (by decide)]

/-! ## The file system and the writes of a whole run -/

theorem setup_done_fs (w : World) :
    (setup_done w).fs = setup_fs envdir0 (sys_mkdir envdir0 w.fs).2 (img_of w) (art_of w) := by
  rw [setup_done_eq]

theorem ensure_ok_dir (w : World) (h : (ensure_dir envdir0 (run_prelude w)).1 = true) :
    (sys_mkdir envdir0 w.fs).2 envdir0 = some Node.dir := by
  have := (ensure_dir_true_iff envdir0 (run_prelude w)).mp h
  simpa [run_prelude_eq, emit] using this

theorem emit_fs (es : List Event) (w : World) : (emit es w).fs = w.fs := rfl

theorem finish_fs (w : World) : (finish w).fs = w.fs := by
  rw [finish, slow_print_eq, emit_fs]

theorem simulate_boot_fs (envdir : String) (w : World) : (simulate_boot envdir w).fs = w.fs := by
  rw [simulate_boot_full]

theorem boot_path_fs (envdir : String) (w : World) : (boot_path envdir w).fs = w.fs := by
  rw [boot_path, simulate_boot_fs, slow_print_eq, emit_fs]

theorem skip_path_fs (envdir : String) (w : World) : (skip_path envdir w).fs = w.fs := by
  rw [skip_path, slow_print_eq, emit_fs]

theorem opt_in_prompt_fs (w : World) :
    (opt_in_prompt w).2.fs
      = setup_fs envdir0 (sys_mkdir envdir0 w.fs).2 (img_of w) (art_of w) := by
  rw [opt_in_prompt_eq]

theorem run_simulation_cases (w : World) (h : (ensure_dir envdir0 (run_prelude w)).1 = true) :
    run_simulation w = finish (boot_path envdir0 (opt_in_prompt w).2)
    ∨ run_simulation w = finish (skip_path envdir0 (opt_in_prompt w).2) := by
  rw [run_simulation_ok w h]
  by_cases hy : starts_with_y ((setup_done w).stdin.headD "")
  · exact Or.inl (offer_boot_yes _ _ hy)
  · exact Or.inr (offer_boot_no _ _ hy)

theorem run_simulation_fs (w : World) (h : (ensure_dir envdir0 (run_prelude w)).1 = true) :
    (run_simulation w).fs
      = setup_fs envdir0 (sys_mkdir envdir0 w.fs).2 (img_of w) (art_of w) := by
  rcases run_simulation_cases w h with hr | hr
  · rw [hr, finish_fs, boot_path_fs, opt_in_prompt_fs]
  · rw [hr, finish_fs, skip_path_fs, opt_in_prompt_fs]

theorem file_writes_of_prints (es : List Event) (h : ∀ e ∈ es, ∃ t, e = Event.print t) :
    file_writes es = [] := by
  induction es with
  | nil => rfl
  | cons e l ih =>
    obtain ⟨t, ht⟩ := h e (List.mem_cons_self e l)
    rw [ht, file_writes_print]
    exact ih (fun e he => h e (List.mem_cons_of_mem _ he))

theorem boot_events_prints (envdir : String) (clock : Nat → String) (t0 : Nat) :
    ∀ e ∈ boot_events envdir clock t0, ∃ t, e = Event.print t := by
  obtain ⟨ss, hs⟩ := bar_events_prints "drift-correct"
  intro e he
  simp only [boot_events, hs, List.mem_append, List.mem_map, List.mem_singleton] at he
  rcases he with (((((⟨_, _, h⟩ | ⟨_, _, h⟩) | h) | h) | ⟨t, _, h⟩) | h) | ⟨_, _, h⟩
  all_goals first
    | exact ⟨_, h.symm⟩
    | exact ⟨_, h⟩

theorem file_writes_setup_events (envdir img art sum : String) (o1 o2 o3 o4 o5 : Bool) :
    file_writes (setup_events envdir img art sum o1 o2 o3 o4 o5) = artifact_paths envdir := by
  simp only [setup_events, phase1_events, phase2_events, phase3_events, phase4_events,
    phase5_events, phase6_events, phase7_events, module_events, file_writes_append,
    file_writes_slow, file_writes_bar, file_writes_write, file_writes_print, file_writes_nil,
    List.append_nil, List.nil_append, artifact_paths, List.cons_append]

theorem lines_read_setup_events (envdir img art sum : String) (o1 o2 o3 o4 o5 : Bool) :
    lines_read (setup_events envdir img art sum o1 o2 o3 o4 o5) = [] := by
  simp only [setup_events, phase1_events, phase2_events, phase3_events, phase4_events,
    phase5_events, phase6_events, phase7_events, module_events, lines_read_append,
    lines_read_slow, lines_read_bar, lines_read_write, lines_read_print, lines_read_nil,
    List.append_nil]

theorem file_writes_ask : file_writes ask_events = [] := by
  simp only [ask_events, file_writes_append, file_writes_slow, file_writes_print,
    file_writes_nil, List.append_nil]

theorem lines_read_ask : lines_read ask_events = [] := by
  simp only [ask_events, lines_read_append, lines_read_slow, lines_read_print,
    lines_read_nil, List.append_nil]

/-- What a run in which the environment directory could be created adds to the
trace after it has read the reply: no write attempt. -/
theorem run_simulation_tail (w : World) (h : (ensure_dir envdir0 (run_prelude w)).1 = true) :
    ∃ rest, (run_simulation w).trace = (opt_in_prompt w).2.trace ++ rest
      ∧ file_writes rest = [] := by
  rcases run_simulation_cases w h with hr | hr
  · refine ⟨_, by rw [hr, boot_path_trace], ?_⟩
    simp only [file_writes_append, file_writes_slow, file_writes_print, file_writes_read,
      file_writes_nil, file_writes_of_prints _ (boot_events_prints _ _ _), List.append_nil]
  · refine ⟨_, by rw [hr, skip_path_trace], ?_⟩
    simp only [file_writes_append, file_writes_slow, List.append_nil]

theorem opt_in_prompt_trace (w : World) :
    (opt_in_prompt w).2.trace = w.trace ++ prelude_events
      ++ [Event.mkdir envdir0 (sys_mkdir envdir0 w.fs).1]
      ++ setup_trace envdir0 (sys_mkdir envdir0 w.fs).2 (img_of w) (art_of w) (sum_of w)
      ++ ask_events ++ [Event.read (w.stdin.headD "")] := by
  rw [opt_in_prompt_eq]

theorem run_simulation_writes (w : World) (h : (ensure_dir envdir0 (run_prelude w)).1 = true) :
    file_writes (run_simulation w).trace = file_writes w.trace ++ artifact_paths envdir0 := by
  obtain ⟨rest, h1, h2⟩ := run_simulation_tail w h
  rw [h1, opt_in_prompt_trace]
  simp only [setup_trace, file_writes_append, file_writes_prelude, file_writes_setup_events,
    file_writes_ask, h2, file_writes_mkdir, file_writes_read, file_writes_nil, List.append_nil]

theorem run_fs_dir (w : World) (h : (ensure_dir envdir0 (run_prelude w)).1 = true) (x : String)
    (hx : w.fs x = some Node.dir) : (run_simulation w).fs x = some Node.dir := by
  rw [run_simulation_fs w h]
  exact setup_fs_dir _ _ _ _ (sys_mkdir_dir _ _ _ hx)

theorem setup_done_fs_dir (w : World) (x : String) (hx : w.fs x = some Node.dir) :
    (setup_done w).fs x = some Node.dir := by
  rw [setup_done_fs]
  exact setup_fs_dir _ _ _ _ (sys_mkdir_dir _ _ _ hx)

/-- In a run in which the environment directory could be created, the stream of the write of
an artifact is good exactly when no directory occupied the name before the run
and the operating system grants the write. -/
theorem run_good (w : World) (h : (ensure_dir envdir0 (run_prelude w)).1 = true)
    (p c : String) (hp : p ∈ artifact_paths envdir0) :
    ofstream_good p c (sys_mkdir envdir0 w.fs).2
      = (w.fs p != some Node.dir && granted w.fs p c) := by
  rw [good_artifact _ p c hp (ensure_ok_dir w h),
    sys_mkdir_other _ _ _ (artifact_path_facts p hp).2.1,
    granted_room _ w.fs p c (sys_mkdir_room envdir0 w.fs)]

/-- After a run in which the environment directory could be created, an artifact whose stream
was good holds the content the run wrote. -/
theorem run_lands (w : World) (h : (ensure_dir envdir0 (run_prelude w)).1 = true) :
    ∀ p c, (p, c) ∈ artifacts envdir0 (img_of w) (art_of w) →
      ofstream_good p c (sys_mkdir envdir0 w.fs).2 = true →
        (run_simulation w).fs p = some (Node.file c) := by
  intro p c hpc hg
  rw [run_simulation_fs w h, setup_fs_at _ _ _ p c hpc]
  exact fs_put_good _ _ _ hg

/-- A run puts no directory where there was none. -/
theorem run_not_dir (w : World) (h : (ensure_dir envdir0 (run_prelude w)).1 = true)
    (p : String) (hp : p ∈ artifact_paths envdir0) (hn : w.fs p ≠ some Node.dir) :
    (run_simulation w).fs p ≠ some Node.dir := by
  rw [run_simulation_fs w h]
  apply setup_fs_not_dir _ _ _ _ hp
  rw [sys_mkdir_other _ _ _ (artifact_path_facts p hp).2.1]
  exact hn

theorem bne_of_ne (a : Option Node) (h : a ≠ some Node.dir) : (a != some Node.dir) = true := by
  simpa using h

/-- After a run in which the environment directory could be created, an artifact whose name no
directory occupied and whose write the operating system granted holds the
content the run wrote. -/
theorem run_granted (w : World) (h : (ensure_dir envdir0 (run_prelude w)).1 = true) :
    ∀ p c, (p, c) ∈ artifacts envdir0 (img_of w) (art_of w) →
      w.fs p ≠ some Node.dir → granted w.fs p c = true →
        (run_simulation w).fs p = some (Node.file c) := by
  intro p c hpc hn hg
  apply run_lands w h p c hpc
  rw [run_good w h p c (artifacts_path _ _ _ p c hpc), hg, bne_of_ne _ hn]
  rfl

/-- Nothing is a directory in a file system with nothing in it. -/
theorem start_world_empty_free (input : List String) (p : String) :
    (start_world empty_fs input).fs p ≠ some Node.dir :=
  fun (h : (none : Option Node) = some Node.dir) => Option.noConfusion h

theorem image_bytes_wrap (kb : Nat) (g : Rng) :
    (image_bytes kb g).length = kb * 1024 % 2 ^ 64 := by
  rw [image_bytes, String.length_mk, (fake_image_buf_spec _ g).1]

theorem image_bytes_length (kb : Nat) (g : Rng) (h : kb * 1024 < 2 ^ 64) :
    (image_bytes kb g).length = kb * 1024 := by
  rw [image_bytes_wrap, Nat.mod_eq_of_lt h]

theorem img_of_length (w : World) : (img_of w).length = 49152 :=
  image_bytes_length 48 w.imgRng (by decide)

theorem second_run_node (w1 w2 : World) (x : String) :
    (second_run w1 w2).fs x = (run_simulation w1).fs x := rfl

theorem second_run_room (w1 w2 : World) : (second_run w1 w2).fs.room = w2.fs.room := rfl

theorem is_hex_no_newline (s : String) (h : is_hex s) : '\n' ∉ s.toList := by
  intro hc
  have := h _ hc
  revert this
  decide

theorem reserve_ok_iff (limit n : Nat) (w : World) :
    reserve_ok limit n w = true ↔ n ≤ limit ∧ n ≤ heap_limit w := by
  simp [reserve_ok]

theorem random_hex_returns (n : Nat) (v : World) :
    (random_hex n v).isSome = true ↔ n ≤ string_max_size ∧ n ≤ heap_limit v := by
  rw [← reserve_ok_iff]
  unfold random_hex
  cases reserve_ok string_max_size n v <;> simp

theorem random_hex_some (n : Nat) (v : World) (r : String × World)
    (h : random_hex n v = some r) : r = random_hex_run n v := by
  unfold random_hex at h
  cases hc : reserve_ok string_max_size n v
  · rw [hc] at h
    cases h
  · rw [hc] at h
    exact (Option.some.inj h).symm

theorem create_fake_image_returns (path : String) (kb : Nat) (v : World) :
    (create_fake_image path kb v).isSome = true
      ↔ kb * 1024 % 2 ^ 64 ≤ vector_max_size ∧ kb * 1024 % 2 ^ 64 ≤ heap_limit v := by
  rw [← reserve_ok_iff]
  cases hc : reserve_ok vector_max_size (kb * 1024 % 2 ^ 64) v
  · rw [create_fake_image_none path kb v hc]
    simp
  · rw [create_fake_image_eq path kb v hc]
    simp

theorem art_of_length (w : World) : (art_of w).length = 128 :=
  (random_hex_from_spec 128 w.hexRng).1

theorem art_line_length (w : World) : (art_of w ++ "\n").length = 129 := by
  rw [String.length_append, art_of_length]
  rfl

theorem good_of_room (fs : FS) (p c : String) (k : Nat) (ho : ofstream_open p fs = true)
    (h : fs.room p = some k) (hl : c.length ≤ k) : ofstream_good p c fs = true := by
  rw [ofstream_good_iff, h]
  exact ⟨ho, hl⟩

theorem granted_of_room (fs : FS) (p c : String) (k : Nat) (h : fs.room p = some k)
    (hl : c.length ≤ k) : granted fs p c = true := by
  unfold granted
  rw [h]
  simpa using hl

theorem rep_push (n : Nat) (c : Char) : (rep n c).push c = rep (n + 1) c := by
  apply String.ext
  simp [rep, String.push, List.replicate_succ']

/-- A generator that always returns k makes `random_hex` repeat one digit. -/
theorem random_hex_from_const (k n p : Nat) :
    (random_hex_from n ⟨fun _ => k, p⟩).1
      = rep n (hexDigits.toList.getD (k % 2 ^ 32 % 16) '0') := by
  induction n with
  | zero => rfl
  | succ n ih =>
    rw [random_hex_from_succ]
    unfold random_hex_step
    rw [ih, (random_hex_from_spec n _).2.2]
    exact rep_push n _

theorem second_run_ensure (w1 w2 : World)
    (hdir : (ensure_dir envdir0 (run_prelude w1)).1 = true) :
    (run_simulation w1).fs envdir0 = some Node.dir
    ∧ sys_mkdir envdir0 (second_run w1 w2).fs = (-1, (second_run w1 w2).fs)
    ∧ (ensure_dir envdir0 (run_prelude (second_run w1 w2))).1 = true := by
  have hA : (run_simulation w1).fs envdir0 = some Node.dir := by
    rw [run_simulation_fs w1 hdir]
    exact setup_fs_dir _ _ _ _ (ensure_ok_dir w1 hdir)
  have hB : (second_run w1 w2).fs envdir0 = some Node.dir := by
    rw [second_run_node]
    exact hA
  have hmk : sys_mkdir envdir0 (second_run w1 w2).fs = (-1, (second_run w1 w2).fs) :=
    sys_mkdir_taken _ _ (by rw [hB]; rfl)
  refine ⟨hA, hmk, ?_⟩
  rw [ensure_dir_true_iff, run_prelude_eq]
  show (sys_mkdir envdir0 (second_run w1 w2).fs).2 envdir0 = some Node.dir
  rw [hmk]
  exact hB

/-! ## Claims on the setup sequencer -/

theorem opt_in_prompt_clock (w : World) :
    (opt_in_prompt w).2.clock = w.clock ∧ (opt_in_prompt w).2.ticks = w.ticks := by
  rw [opt_in_prompt_eq]
  exact ⟨rfl, rfl⟩

/-- C4: before its prompt `simulate_boot(envdir)` prints, each line with the
time stamp the clock gives at that moment: the 6 EARLY lines in declared order,
the 5 MID lines in declared order, the FAULT line, the corrective-action line,
the progress bar of the correction, the compensation-complete line, then the 5
LATE lines in declared order; the prompt, the reading of the command and the
response come after.  The fourth LATE line is "Loading artifact: " followed by
`envdir` and "/artifact.hex"; in a run that reaches the boot sequence the path
is the environment directory the setup created, `4d_kernel_env`. -/
theorem boot_log_order (envdir : String) (w : World) :
    (boot_logs envdir w).trace = w.trace
      ++ early.enum.map (fun kl => log_event w.clock (w.ticks + kl.1) BLUE kl.2)
      ++ (mid.enumFrom 6).map (fun kl => log_event w.clock (w.ticks + kl.1) CYAN kl.2)
      ++ [log_event w.clock (w.ticks + 11) RED "WARNING: Temporal skew detected on slice1"]
      ++ [log_event w.clock (w.ticks + 12) YELLOW "Attempting corrective drift compensation..."]
      ++ bar_events "drift-correct"
      ++ [log_event w.clock (w.ticks + 13) GREEN "Compensation complete. No data loss."]
      ++ ((late envdir).enumFrom 14).map
          (fun kl => log_event w.clock (w.ticks + kl.1) GREEN kl.2)
    ∧ early.length = 6 ∧ mid.length = 5 ∧ (late envdir).length = 5
    ∧ (late envdir)[3]? = some ("Loading artifact: " ++ envdir ++ "/artifact.hex")
    ∧ (simulate_boot envdir w).trace = (boot_logs envdir w).trace
        ++ [Event.print (MAG ++ "4d# " ++ RESET), Event.read (w.stdin.headD ""),
            Event.print (branch_text (branch_of (w.stdin.headD "")) (w.stdin.headD "") w.hexRng)]
    ∧ ((ensure_dir envdir0 (run_prelude w)).1 = true → starts_with_y (w.stdin.headD "") →
        run_simulation w = finish (simulate_boot envdir0
          (slow_print (MAG ++ "Starting simulated boot..." ++ RESET) 6 (opt_in_prompt w).2))
        ∧ Event.mkdir envdir0 (sys_mkdir envdir0 w.fs).1 ∈ (run_simulation w).trace
        ∧ log_event w.clock (w.ticks + 17) GREEN
            ("Loading artifact: " ++ envdir0 ++ "/artifact.hex") ∈ (run_simulation w).trace) := by
  refine ⟨by rw [boot_logs_eq], rfl, rfl, rfl, rfl, ?_, ?_⟩
  · rw [simulate_boot_full, boot_logs_eq]
    simp only [boot_events, List.append_assoc]
  · intro hdir hy
    have hs : (setup_done w).stdin = w.stdin := by rw [setup_done_eq]
    have hrun : run_simulation w = finish (boot_path envdir0 (opt_in_prompt w).2) := by
      rw [run_simulation_ok w hdir]
      exact offer_boot_yes envdir0 (setup_done w) (by rw [hs]; exact hy)
    refine ⟨hrun, ?_, ?_⟩
    · rw [hrun, boot_path_trace, opt_in_prompt_trace]
      simp
    · rw [hrun, boot_path_trace, (opt_in_prompt_clock w).1, (opt_in_prompt_clock w).2]
      simp [boot_events, late, List.enumFrom]

/-- Witness of C4: on an empty file system, with the reply "yes", the run
creates `4d_kernel_env` and its boot log names `4d_kernel_env/artifact.hex`. -/
theorem boot_log_order_witness :
    (ensure_dir envdir0 (run_prelude world_yes)).1 = true
    ∧ starts_with_y (world_yes.stdin.headD "")
    ∧ log_event world_yes.clock (world_yes.ticks + 17) GREEN
        ("Loading artifact: " ++ envdir0 ++ "/artifact.hex") ∈ (run_simulation world_yes).trace :=
  And.intro (by decide) (And.intro (Or.inl rfl)
    ((boot_log_order envdir0 world_yes).2.2.2.2.2.2 (by decide)
      (Or.inl rfl)).2.2)

end Kernel4D
